import Mathlib

/-!
# Verification of `pygame_funny_simulations`

Shallow embedding of the seven simulation modules of the repository
(`colorful_flooding`, `pizza_rain`, `rebound_collisions`, `sand_clock`,
`shooting_star`, `solar_system`, `wrecking_ball`) and proofs about them.

Modelling conventions, used uniformly below:

* Python `int` values become `ℤ` (or `ℕ` for counters that are only ever
  incremented from 0); Python floats (pymunk positions, velocities) become
  exact rationals `ℚ`, except for the solar-system planet geometry, whose
  claim is about exact real arithmetic and which is embedded over `ℝ` with
  `Real.sqrt` standing for `math.sqrt`.
* Python `//` (floor division) becomes `Int.fdiv`.
* The external libraries are modelled at their call boundary:
  - a pymunk `Space` becomes the list of objects (bodies and shapes) it
    contains; `Space.add` appends, `Space.remove` is the sequential
    per-object removal that raises `AssertionError` (`PyErr.assertionError`)
    as soon as one of its arguments is not in the space, leaving any
    previously processed arguments removed (Python mutation semantics);
  - `Space.step` never changes the set of objects in a space; the motion it
    produces is external to this repository and is modelled as an arbitrary
    per-body position transformation passed as a parameter `phys`;
  - the `random` module is modelled by a stream `rand : ℕ → ℕ` of draws,
    one slot per sampling call; `random.choice((-1, 1))` reads one slot
    mod 2, `random.choices(population=range(255), k=3)` reads three slots
    mod 255, `random.randrange(start, stop)` reads one slot mod the width
    of the (assumed non-empty) range;
  - pygame calls that only affect the outside world (window, caption,
    clock, images) are recorded as events of type `ECall` in a trace;
    every embedded constructor and per-frame method returns such a trace
    alongside its result, so that properties about which external calls
    are made (creating a space, stepping it, adding shapes) are statable.
* Exceptions are explicit: fallible code returns `Except PyErr _`; an
  uncaught Python exception is an `Except.error`.
-/

/-- Python exceptions that appear in the repository: the `AssertionError`
raised by pymunk `Space.add`/`Space.remove`, and the `ValueError`s raised by
the two validating constructors. -/
inductive PyErr where
  | assertionError : PyErr
  | valueError (msg : String) : PyErr
deriving DecidableEq, Repr

/-- The kind of a pymunk shape.  The repository only ever builds `Circle`
and `Segment` shapes, but pymunk also offers polygon shapes, so the model
keeps a `poly` constructor to make "only circles and segments are added"
a non-vacuous statement. -/
inductive ShapeKind where
  | circle : ShapeKind
  | segment : ShapeKind
  | poly : ShapeKind
deriving DecidableEq, Repr

/-- External-library calls recorded in traces. -/
inductive ECall where
  | readConfig : ECall
  | loadImage : ECall
  | setMode : ECall
  | setCaption : ECall
  | createClock : ECall
  | createSpace : ECall
  | setGravity : ECall
  | spaceAddBody : ECall
  | spaceAddShape (kind : ShapeKind) : ECall
  | spaceRemove : ECall
  | spaceStep (dt : ℚ) : ECall
deriving DecidableEq, Repr

/-- Number of `Space.step` calls recorded in a trace. -/
def stepCount (tr : List ECall) : ℕ :=
  tr.countP fun c => match c with | ECall.spaceStep _ => true | _ => false

/-- Every shape added to a space in the trace `tr` is a circle or a
segment. -/
def addsOnlyCircSeg (tr : List ECall) : Prop :=
  ∀ k, ECall.spaceAddShape k ∈ tr → k = ShapeKind.circle ∨ k = ShapeKind.segment

/-- An external call that is neither a `Space.step` nor the addition of a
polygon shape; trace-content lemmas are phrased with it. -/
def tame : ECall → Prop
  | ECall.spaceStep _ => False
  | ECall.spaceAddShape ShapeKind.poly => False
  | _ => True

/-- `random.choice((a, b))`, reading the single draw `r`. -/
def pyChoice (r : ℕ) (a b : ℤ) : ℤ := if r % 2 = 0 then a else b

/-- `random.choices(population=range(255), k=3)`: three draws from
`0, …, 254`. -/
def pyChoices3 (r0 r1 r2 : ℕ) : List ℕ := [r0 % 255, r1 % 255, r2 % 255]

/-- `random.randrange(start, stop)`, reading the single draw `r`.  The
repository only calls it on non-empty ranges; on an empty range Python
would raise, which is not modelled (the value `start` is returned). -/
def pyRandrange (r : ℕ) (start stop : ℤ) : ℤ :=
  if start < stop then start + (r : ℤ) % (stop - start) else start

/-- pymunk `Space.remove(*objs)`: remove the objects one after the other,
raising `AssertionError` at the first object that is not in the space.
Objects removed before the failing one stay removed (Python mutates as it
goes).  Returns the resulting space and the raised error, if any. -/
def spaceRemoveSeq {σ : Type} [DecidableEq σ] :
    List σ → List σ → List σ × Option PyErr
  | sp, [] => (sp, none)
  | sp, t :: ts =>
      if t ∈ sp then spaceRemoveSeq (sp.erase t) ts
      else (sp, some PyErr.assertionError)

/-- The trace of one `space.add(body, shape)` call for a shape of kind
`k`. -/
def addPair (k : ShapeKind) : List ECall := [ECall.spaceAddBody, ECall.spaceAddShape k]

namespace PizzaRain

/-- A pygame `Rect`: top-left corner `(x, y)` and size `(w, h)`. -/
structure Rect where
  x : ℤ
  y : ℤ
  w : ℤ
  h : ℤ
deriving DecidableEq, Repr

/-- `rect.center = (cx, cy)` (pygame assigns the top-left corner from the
centre using floor division by 2). -/
def Rect.setCenter (r : Rect) (cx cy : ℤ) : Rect :=
  { r with x := cx - Int.fdiv r.w 2, y := cy - Int.fdiv r.h 2 }

/-- pygame `Rect.colliderect`: the two rectangles overlap. -/
def Rect.collides (a b : Rect) : Bool :=
  decide (a.x < b.x + b.w) && decide (b.x < a.x + a.w) &&
  decide (a.y < b.y + b.h) && decide (b.y < a.y + a.h)

/-- A `Pizza` sprite (`pizza_rain.Pizza`).  The loaded image surface is
modelled by the number of quarter-turn rotations applied to it. -/
structure Pizza where
  imageQuarterTurns : ℕ
  rect : Rect
  vertical_speed : ℤ
  rotation_every : ℤ
  diameter : ℤ
  screen_height : ℤ
  n_updates : ℤ
deriving DecidableEq, Repr

/-- `Pizza.__init__`: raises `ValueError` when the image path does not
exist (`fs` models `os.path.exists`); otherwise loads and scales the image
to `diameter × diameter`, so the sprite's rect is `(0, 0, d, d)`. -/
def Pizza.init (fs : String → Bool) (pizza_img_path : String)
    (vertical_speed rotation_every diameter screen_height : ℤ) :
    Except PyErr Pizza :=
  if fs pizza_img_path then
    Except.ok
      { imageQuarterTurns := 0
        rect := { x := 0, y := 0, w := diameter, h := diameter }
        vertical_speed := vertical_speed
        rotation_every := rotation_every
        diameter := diameter
        screen_height := screen_height
        n_updates := 0 }
  else Except.error (PyErr.valueError "The given pizza_img_path does not exists")

/-- `Pizza.update(vertical_speed_incr, rotation_every_incr)`. -/
def Pizza.update (vertical_speed_incr rotation_every_incr : Option ℤ)
    (p : Pizza) : Pizza :=
  match vertical_speed_incr with
  | some v => { p with vertical_speed := max 1 (p.vertical_speed + v) }
  | none =>
    match rotation_every_incr with
    | some r =>
        let re := max 1 (p.rotation_every + r)
        { p with rotation_every := re, n_updates := re - 1 }
    | none =>
        let p := { p with rect := { p.rect with y := p.rect.y + p.vertical_speed } }
        let p :=
          if p.rect.y > p.screen_height then
            { p with rect := { p.rect with y := 0 - p.rect.h } }
          else p
        let p := { p with n_updates := p.n_updates + 1 }
        if p.n_updates = p.rotation_every then
          { p with n_updates := 0, imageQuarterTurns := p.imageQuarterTurns + 1 }
        else p

/-- Apply a sequence of `Pizza.update` calls, each with its pair of
optional increment arguments. -/
def Pizza.updates (calls : List (Option ℤ × Option ℤ)) (p : Pizza) : Pizza :=
  calls.foldl (fun q c => Pizza.update c.1 c.2 q) p

/-- The relevant entries of `pizza_rain/config.yml`. -/
structure Config where
  screen_width : ℤ
  screen_height : ℤ
  number_of_pizzas : ℕ
  vertical_speed : ℤ
  rotation_every : ℤ
  diameter : ℤ
  vertical_speed_incr : ℤ
  rotation_every_incr : ℤ
  pizza_images_files : List String
deriving DecidableEq, Repr

/-- `random.choice` on a list of file names (the repository only calls it
on non-empty lists; the empty case, where Python would raise, yields `""`). -/
def pyChoiceList (r : ℕ) (l : List String) : String := l.getD (r % l.length) ""

/-- The `while pygame.sprite.spritecollide(...)` placement loop of
`PizzaRain.__init__`: while the new pizza overlaps a pizza already in the
group, move its centre to a fresh random point.  The source loop has no
termination guarantee, so the model carries explicit `fuel`; `cur` is the
cursor into the random stream.  Returns the placed pizza and the new
cursor. -/
def placeLoop (rand : ℕ → ℕ) (cfg : Config) :
    ℕ → ℕ → Pizza → List Pizza → Pizza × ℕ
  | 0, cur, p, _ => (p, cur)
  | fuel + 1, cur, p, group =>
      if group.any fun q => Rect.collides p.rect q.rect then
        let x := pyRandrange (rand cur) 0 cfg.screen_width
        let y := pyRandrange (rand (cur + 1)) 0 cfg.screen_height
        placeLoop rand cfg fuel (cur + 2) { p with rect := p.rect.setCenter x y } group
      else (p, cur)

/-- The pizza-creation loop of `PizzaRain.__init__`: build `n` pizzas,
choosing a random image file for each, raising out of the constructor if
`Pizza.__init__` raises.  Emits one `loadImage` per successfully loaded
pizza. -/
def buildPizzas (fs : String → Bool) (rand : ℕ → ℕ) (fuel : ℕ)
    (dir_path : String) (cfg : Config) :
    ℕ → ℕ → List Pizza → Except PyErr (List Pizza) × List ECall
  | 0, _, group => (Except.ok group, [])
  | n + 1, cur, group =>
      let pizza_img := pyChoiceList (rand cur) cfg.pizza_images_files
      match Pizza.init fs (dir_path ++ "/images/" ++ pizza_img)
          cfg.vertical_speed cfg.rotation_every cfg.diameter cfg.screen_height with
      | Except.error e => (Except.error e, [])
      | Except.ok p =>
          let pc := placeLoop rand cfg fuel (cur + 1) p group
          let rest := buildPizzas fs rand fuel dir_path cfg n pc.2 (group ++ [pc.1])
          (rest.1, ECall.loadImage :: rest.2)

/-- State of a `PizzaRain` object. -/
structure State where
  pizza_list : List Pizza
  is_running : Bool
  config : Config
deriving DecidableEq, Repr

/-- `PizzaRain.__init__`: read the config, set up the pygame window (note:
no pymunk space is created anywhere in this module), then build the group
of pizzas. -/
def init (fs : String → Bool) (rand : ℕ → ℕ) (fuel : ℕ)
    (dir_path : String) (cfg : Config) : Except PyErr State × List ECall :=
  let pre := [ECall.readConfig, ECall.setMode, ECall.setCaption, ECall.createClock]
  match buildPizzas fs rand fuel dir_path cfg cfg.number_of_pizzas 0 [] with
  | (Except.ok ps, tr) =>
      (Except.ok { pizza_list := ps, is_running := true, config := cfg }, pre ++ tr)
  | (Except.error e, tr) => (Except.error e, pre ++ tr)

/-- `PizzaRain.run_logic`: if the simulation is running, update every
pizza (a no-argument `Group.update`), then refresh the caption.  No
physics space exists, so no `Space.step` call is made. -/
def run_logic (st : State) : State × List ECall :=
  let st' :=
    if st.is_running then
      { st with pizza_list := st.pizza_list.map (Pizza.update none none) }
    else st
  (st', [ECall.setCaption])

end PizzaRain

namespace SandClock

/-- Python `int()` applied to an exact value: truncation toward zero. -/
def pyInt (q : ℚ) : ℤ := if 0 ≤ q then ⌊q⌋ else ⌈q⌉

/-- The relevant entries of `sand_clock/config.yml`. -/
structure Config where
  screen_width : ℤ
  screen_height : ℤ
  gravity_y : ℚ
  structure_width : ℤ
  structure_height : ℤ
  neck_width : ℤ
  line_width : ℤ
  n_sand_grains : ℕ
  sand_grain_radius : ℤ
  sand_grain_mass : ℤ
  sand_grain_color_type : String
deriving DecidableEq, Repr

/-- The fixed colour `SandGrain.desert_yellow = (255, 200, 0)` (colour
tuples and colour lists are not distinguished by the model). -/
def desert_yellow : List ℕ := [255, 200, 0]

/-- A `SandGrain`: a dynamic circular pymunk body.  `pos` is
`body.position`, modelled exactly over `ℚ`. -/
structure SandGrain where
  color : List ℕ
  radius : ℤ
  mass : ℤ
  pos : ℚ × ℚ
deriving DecidableEq, Repr

/-- `SandGrain.__init__`: a random colour (three draws starting at stream
cursor `cur`) when `color_type` is `'random'`, the fixed yellow when it is
`'yellow'`, and a `ValueError` otherwise. -/
def SandGrain.init (rand : ℕ → ℕ) (cur : ℕ) (center : ℚ × ℚ)
    (radius mass : ℤ) (color_type : String) : Except PyErr SandGrain :=
  if color_type = "random" then
    Except.ok
      { color := pyChoices3 (rand cur) (rand (cur + 1)) (rand (cur + 2))
        radius := radius, mass := mass, pos := center }
  else if color_type = "yellow" then
    Except.ok { color := desert_yellow, radius := radius, mass := mass, pos := center }
  else
    Except.error (PyErr.valueError
      ("'color_type' must be either 'random' or 'yellow'," ++
        "but " ++ color_type ++ " was given."))

/-- A `SandClockStructure`: six static segments forming the hourglass;
only the geometry parameters are needed by the logic. -/
structure Structure where
  center : ℤ × ℤ
  width : ℤ
  height : ℤ
  neck_width : ℤ
  line_width : ℤ
deriving DecidableEq, Repr

/-- `SandClockStructure.init_grain_random_position`: a random point inside
the upper bulb, computed from the descending diagonal of the bulb.  Three
random draws starting at cursor `cur`: the x coordinate, the y coordinate,
and the coin for the horizontal flip (`random.random() > 0.5`). -/
def Structure.init_grain_random_position (rand : ℕ → ℕ) (cur : ℕ)
    (s : Structure) : ℤ × ℤ :=
  let tl : ℤ × ℤ := (s.center.1 - Int.fdiv s.width 2, s.center.2 - Int.fdiv s.height 2)
  let m : ℚ := ((tl.2 - s.center.2 : ℤ) : ℚ) / ((tl.1 - s.center.1 : ℤ) : ℚ)
  let b : ℚ := (tl.2 : ℚ) - m * (tl.1 : ℚ)
  let x := pyRandrange (rand cur) (tl.1 + 30) (s.center.1 - 15)
  let y_max := pyInt (m * (x : ℚ) + b)
  let y := pyRandrange (rand (cur + 1)) (tl.2 + 5) (y_max - 5)
  let x := if rand (cur + 2) % 2 = 1 then s.center.1 - x + s.center.1 else x
  (x, y)

/-- State of a `SandClock` object. -/
structure State where
  sand_clock_structure : Structure
  sand_grains_list : List SandGrain
  tip_over : Bool
  reset : Bool
  config : Config
deriving DecidableEq, Repr

/-- The grain-creation loop of `SandClock.__init__`: build `n` grains,
each at a fresh random position in the upper bulb.  Each grain consumes
six random-stream slots (three for the position, three for a random
colour).  Raises out of the constructor if `SandGrain.__init__` raises. -/
def buildGrains (rand : ℕ → ℕ) (cfg : Config) (s : Structure) :
    ℕ → ℕ → Except PyErr (List SandGrain)
  | 0, _ => Except.ok []
  | n + 1, cur =>
      let c := s.init_grain_random_position rand cur
      match SandGrain.init rand (cur + 3) ((c.1 : ℚ), (c.2 : ℚ))
          cfg.sand_grain_radius cfg.sand_grain_mass cfg.sand_grain_color_type with
      | Except.error e => Except.error e
      | Except.ok g =>
          match buildGrains rand cfg s n (cur + 6) with
          | Except.error e => Except.error e
          | Except.ok gs => Except.ok (g :: gs)

/-- `SandClock.__init__`: pygame window, pymunk space with vertical
gravity, the six-segment structure added to the space, then
`n_sand_grains` grains built (first loop) and added to the space (second
loop).  When a grain constructor raises, the error propagates before any
grain is added. -/
def init (rand : ℕ → ℕ) (cfg : Config) : Except PyErr State × List ECall :=
  let pre :=
    [ECall.readConfig, ECall.setMode, ECall.setCaption, ECall.createClock,
     ECall.createSpace, ECall.setGravity]
  let s : Structure :=
    { center := (Int.fdiv cfg.screen_width 2, Int.fdiv cfg.screen_height 2)
      width := cfg.structure_width, height := cfg.structure_height
      neck_width := cfg.neck_width, line_width := cfg.line_width }
  let structAdds := (List.range 6).flatMap fun _ => addPair ShapeKind.segment
  match buildGrains rand cfg s cfg.n_sand_grains 0 with
  | Except.error e => (Except.error e, pre ++ structAdds)
  | Except.ok gs =>
      let grainAdds := gs.flatMap fun _ => addPair ShapeKind.circle
      (Except.ok
        { sand_clock_structure := s, sand_grains_list := gs
          tip_over := false, reset := false, config := cfg },
        pre ++ structAdds ++ grainAdds)

/-- `SandClock._flip_vertically`: reflect every grain's y coordinate about
the structure centre's y coordinate; x coordinates are untouched. -/
def flip_vertically (st : State) : State :=
  let structure_center_y : ℚ := (st.sand_clock_structure.center.2 : ℚ)
  { st with
    sand_grains_list := st.sand_grains_list.map fun g =>
      { g with pos := (g.pos.1, 2 * structure_center_y - g.pos.2) } }

/-- `SandClock.run_logic`: one `space.step(1/100)` (the external engine
`phys` moves each grain), then the tip-over flip if requested, then the
reset (which re-runs `__init__`, re-reading the same config) if
requested. -/
def run_logic (phys : ℚ × ℚ → ℚ × ℚ) (rand : ℕ → ℕ) (st : State) :
    Except PyErr State × List ECall :=
  let st1 :=
    { st with sand_grains_list :=
        st.sand_grains_list.map fun g : SandGrain => { g with pos := phys g.pos } }
  let st2 :=
    if st1.tip_over then flip_vertically { st1 with tip_over := false } else st1
  if st2.reset then
    let st3 := { st2 with reset := false }
    match init rand st3.config with
    | (Except.ok st4, tr) => (Except.ok st4, ECall.spaceStep (1 / 100) :: tr)
    | (Except.error e, tr) => (Except.error e, ECall.spaceStep (1 / 100) :: tr)
  else (Except.ok st2, [ECall.spaceStep (1 / 100)])

end SandClock

namespace SolarSystem

/-- A `Planet` of the solar-system simulation.  Positions are exact reals;
`math.sqrt` is `Real.sqrt`.  `translation_step` is an `int` in the source;
it is kept as the real number it is injected into by the arithmetic. -/
structure Planet where
  center : ℝ × ℝ
  radius : ℝ
  translation_step : ℝ
  clockwise_translation : Bool
  color : ℕ × ℕ × ℕ
  screen_center : ℝ × ℝ
  original_vector_norm : ℝ

/-- `Planet.__init__`: store the parameters and record the norm of the
vector from the planet's centre to the screen centre. -/
noncomputable def Planet.init (init_center : ℝ × ℝ) (radius translation_step : ℝ)
    (clockwise_translation : Bool) (color : ℕ × ℕ × ℕ)
    (screen_center : ℝ × ℝ) : Planet :=
  { center := init_center, radius := radius, translation_step := translation_step
    clockwise_translation := clockwise_translation, color := color
    screen_center := screen_center
    original_vector_norm :=
      Real.sqrt ((screen_center.1 - init_center.1) ^ 2 +
        (screen_center.2 - init_center.2) ^ 2) }

/-- `Planet.update`: step along the perpendicular of the vector from the
screen centre to the planet, then rescale so the distance to the screen
centre is `original_vector_norm` again. -/
noncomputable def Planet.update (p : Planet) : Planet :=
  let v_x := p.screen_center.1 - p.center.1
  let v_y := p.screen_center.2 - p.center.2
  let v_perp : ℝ × ℝ :=
    if p.clockwise_translation then (v_y, -v_x) else (-v_y, v_x)
  let new_center_x := p.translation_step * v_perp.1 + p.center.1
  let new_center_y := p.translation_step * v_perp.2 + p.center.2
  let new_vector_norm :=
    Real.sqrt ((p.screen_center.1 - new_center_x) ^ 2 +
      (p.screen_center.2 - new_center_y) ^ 2)
  { p with center :=
      (p.screen_center.1 + (new_center_x - p.screen_center.1)
        / new_vector_norm * p.original_vector_norm,
       p.screen_center.2 + (new_center_y - p.screen_center.2)
        / new_vector_norm * p.original_vector_norm) }

/-- `Planet.update` wrapped with a random stream argument.  The source
method consults no random source and reads no real-time input, so the
stream is unused; this wrapper is what makes that statable. -/
noncomputable def Planet.updateWithRand (rand : ℕ → ℕ) (p : Planet) : Planet :=
  Planet.update p

/-- Distance between two points, written as the source writes it
(`math.sqrt` of the sum of squared coordinate differences). -/
noncomputable def distTo (c s : ℝ × ℝ) : ℝ :=
  Real.sqrt ((s.1 - c.1) ^ 2 + (s.2 - c.2) ^ 2)

/-- State of a `SolarSystem` object (only the parts its per-frame logic
touches: the planet list). -/
structure State where
  planets_list : List Planet

/-- The external calls of `SolarSystem.__init__`: read the config, load
and scale the background image, and set up the pygame window.  No pymunk
space is created anywhere in this module (the module does not even import
pymunk). -/
def initCalls : List ECall :=
  [ECall.readConfig, ECall.loadImage, ECall.setMode, ECall.setCaption,
   ECall.createClock]

/-- `SolarSystem.run_logic`: update every planet.  No external call is
made (in particular no `Space.step`: there is no space). -/
noncomputable def run_logic (st : State) : State × List ECall :=
  ({ planets_list := st.planets_list.map Planet.update }, [])

end SolarSystem

namespace ColorfulFlooding

/-- The objects of the colorful-flooding pymunk space: the four boundary
segments (each a static body plus a segment shape) and the balls (each a
dynamic body plus a circle shape, tagged by a creation index). -/
inductive Obj where
  | bottomBody : Obj
  | bottomShape : Obj
  | upperBody : Obj
  | upperShape : Obj
  | leftBody : Obj
  | leftShape : Obj
  | rightBody : Obj
  | rightShape : Obj
  | ballBody (n : ℕ) : Obj
  | ballShape (n : ℕ) : Obj
deriving DecidableEq, Repr

/-- The relevant entries of `colorful_flooding/config.yml`. -/
structure Config where
  screen_width : ℤ
  screen_height : ℤ
  gravity : ℚ
  n_sources : ℕ
  create_balls_every : ℕ
  mass : ℤ
  radius : ℤ
  elasticity : ℚ
  friction : ℚ
deriving DecidableEq, Repr

/-- A `Ball`: a dynamic circular pymunk body.  `idx` identifies its body
and shape in the space (Python object identity); `pos` is
`body.position`. -/
structure Ball where
  idx : ℕ
  color : List ℕ
  mass : ℤ
  radius : ℤ
  elasticity : ℚ
  friction : ℚ
  pos : ℚ × ℚ
deriving DecidableEq, Repr

/-- `Ball.is_out_of_the_screen`: the ball's centre minus half its radius
(floor-divided) is below the screen. -/
def Ball.is_out_of_the_screen (b : Ball) (screen_height : ℤ) : Bool :=
  decide (b.pos.2 - ((Int.fdiv b.radius 2 : ℤ) : ℚ) > (screen_height : ℚ))

/-- State of a `ColorfulFlooding` object. -/
structure State where
  space : List Obj
  sources_positions : List (ℤ × ℤ)
  balls_list : List Ball
  counter : ℕ
  remove_screen_bottom : Bool
  nextId : ℕ
  config : Config
deriving DecidableEq, Repr

/-- `ColorfulFlooding.__init__`: pygame window, pymunk space with vertical
gravity, the equidistant source positions, and the four boundary segments
added to the space (the bottom one first, as in the `space.add` call). -/
def init (cfg : Config) : State × List ECall :=
  let sources_y := Int.fdiv cfg.screen_height 5
  let sources_intra_distance := Int.fdiv cfg.screen_width ((cfg.n_sources : ℤ) + 1)
  let sources_positions :=
    (List.range cfg.n_sources).map fun k =>
      (((k : ℤ) + 1) * sources_intra_distance, sources_y)
  ({ space :=
      [Obj.bottomBody, Obj.bottomShape, Obj.upperBody, Obj.upperShape,
       Obj.leftBody, Obj.leftShape, Obj.rightBody, Obj.rightShape]
     sources_positions := sources_positions
     balls_list := []
     counter := 0
     remove_screen_bottom := false
     nextId := 0
     config := cfg },
   [ECall.readConfig, ECall.setMode, ECall.setCaption, ECall.createClock,
    ECall.createSpace, ECall.setGravity] ++
    addPair ShapeKind.segment ++ addPair ShapeKind.segment ++
    addPair ShapeKind.segment ++ addPair ShapeKind.segment)

/-- The ball-creation loop body of `ColorfulFlooding.run_logic`: one new
ball per source, each placed at the source nudged horizontally by a random
`±1`, with a random colour.  `k` is the cursor into the random stream (four
draws per ball) and `nid` the index given to the new ball's body and
shape. -/
def makeBalls (rand : ℕ → ℕ) (cfg : Config) :
    List (ℤ × ℤ) → ℕ → ℕ → List Ball
  | [], _, _ => []
  | (source_x, source_y) :: rest, k, nid =>
      { idx := nid
        color := pyChoices3 (rand (k + 1)) (rand (k + 2)) (rand (k + 3))
        mass := cfg.mass, radius := cfg.radius
        elasticity := cfg.elasticity, friction := cfg.friction
        pos := (((source_x + pyChoice (rand k) (-1) 1 : ℤ) : ℚ), (source_y : ℚ)) }
        :: makeBalls rand cfg rest (k + 4) (nid + 1)

/-- The space objects of a list of balls, in the order they are added. -/
def ballObjs (bs : List Ball) : List Obj :=
  bs.flatMap fun b => [Obj.ballBody b.idx, Obj.ballShape b.idx]

/-- The `space.add(new_ball.body, new_ball.shape)` trace of a list of new
balls. -/
def ballAdds (bs : List Ball) : List ECall :=
  bs.flatMap fun _ => addPair ShapeKind.circle

/-- The `space.step(1/60)` phase of `ColorfulFlooding.run_logic`: the
external engine `phys` moves every ball; the set of objects in the space
is unchanged. -/
def stepPhase (phys : ℚ × ℚ → ℚ × ℚ) (st : State) : State × List ECall :=
  ({ st with balls_list :=
      st.balls_list.map fun b : Ball => { b with pos := phys b.pos } },
   [ECall.spaceStep (1 / 60)])

/-- The ball-spawning phase of `ColorfulFlooding.run_logic`: increment the
counter; when it reaches `create_balls_every` and the bottom segment has
not been scheduled for removal, reset it and add one ball per source to
the list and to the space. -/
def spawnPhase (rand : ℕ → ℕ) (st : State) : State × List ECall :=
  let st := { st with counter := st.counter + 1 }
  if ¬st.remove_screen_bottom ∧ st.counter = st.config.create_balls_every then
    let new := makeBalls rand st.config st.sources_positions 0 st.nextId
    ({ st with
        counter := 0
        balls_list := st.balls_list ++ new
        space := st.space ++ ballObjs new
        nextId := st.nextId + new.length },
     ballAdds new)
  else (st, [])

/-- The bottom-segment teardown phase of `ColorfulFlooding.run_logic`:
when `_remove_screen_bottom` is set, attempt
`space.remove(*self._screen_bottom)` and suppress the `AssertionError` a
second removal raises (`try`/`except AssertionError: pass`). -/
def removeBottomPhase (st : State) : State × List ECall :=
  if st.remove_screen_bottom then
    match spaceRemoveSeq st.space [Obj.bottomBody, Obj.bottomShape] with
    | (sp, none) => ({ st with space := sp }, [ECall.spaceRemove, ECall.spaceRemove])
    | (sp, some _) => ({ st with space := sp }, [])
  else (st, [])

/-- The ball-culling loop of `ColorfulFlooding.run_logic`:
`for ball in self.balls_list: if ball.is_out_of_the_screen(...):
self.balls_list.remove(ball); self.space.remove(ball.body, ball.shape)`.
Python's `for` iterates by index while `list.remove` shifts the tail, so
removing the current ball skips the next one; `space.remove` raises an
uncaught `AssertionError` when the ball's body or shape is not in the
space. -/
def cullLoop (screen_height : ℤ) (i : ℕ) (balls : List Ball) (sp : List Obj) :
    Except PyErr (List Ball × List Obj) × List ECall :=
  if h : i < balls.length then
    let b := balls.get ⟨i, h⟩
    if b.is_out_of_the_screen screen_height then
      let balls' := balls.eraseIdx i
      match spaceRemoveSeq sp [Obj.ballBody b.idx, Obj.ballShape b.idx] with
      | (sp', none) =>
          let rest := cullLoop screen_height (i + 1) balls' sp'
          (rest.1, ECall.spaceRemove :: rest.2)
      | (_, some e) => (Except.error e, [])
    else cullLoop screen_height (i + 1) balls sp
  else (Except.ok (balls, sp), [])
termination_by balls.length - i
decreasing_by
  · have : balls.length - 1 < balls.length := by omega
    simp only [List.length_eraseIdx, h, if_pos]
    omega
  · omega

/-- `ColorfulFlooding.run_logic`: step the space once, maybe spawn balls,
maybe tear down the bottom segment (suppressing the double-removal
error), then cull off-screen balls. -/
def run_logic (phys : ℚ × ℚ → ℚ × ℚ) (rand : ℕ → ℕ) (st : State) :
    Except PyErr State × List ECall :=
  let s1 := stepPhase phys st
  let s2 := spawnPhase rand s1.1
  let s3 := removeBottomPhase s2.1
  let s4 := cullLoop s3.1.config.screen_height 0 s3.1.balls_list s3.1.space
  match s4.1 with
  | Except.ok r =>
      (Except.ok { s3.1 with balls_list := r.1, space := r.2 },
       s1.2 ++ s2.2 ++ s3.2 ++ s4.2)
  | Except.error e => (Except.error e, s1.2 ++ s2.2 ++ s3.2 ++ s4.2)

end ColorfulFlooding

namespace WreckingBall

/-- The objects of the wrecking-ball pymunk space: the kinematic wrecking
ball (body plus circle shape) and the falling small balls. -/
inductive Obj where
  | wreckingBody : Obj
  | wreckingShape : Obj
  | ballBody (n : ℕ) : Obj
  | ballShape (n : ℕ) : Obj
deriving DecidableEq, Repr

/-- The relevant entries of `wrecking_ball/config.yml`. -/
structure Config where
  screen_width : ℤ
  screen_height : ℤ
  gravity_y : ℚ
  min_velocity_x : ℤ
  max_velocity_x : ℤ
  min_velocity_y : ℤ
  max_velocity_y : ℤ
  wrecking_ball_radius : ℤ
  small_ball_radius : ℤ
  small_ball_mass : ℤ
  elasticity : ℚ
  friction : ℚ
deriving DecidableEq, Repr

/-- A `SmallBall`: a dynamic circular pymunk body.  `pos` is
`body.position` (its velocity is only ever touched by the external
engine and is not read by the repository's code, so it is left to the
`phys` parameter). -/
structure SmallBall where
  idx : ℕ
  color : List ℕ
  radius : ℤ
  mass : ℤ
  elasticity : ℚ
  friction : ℚ
  pos : ℚ × ℚ
deriving DecidableEq, Repr

/-- `SmallBall.is_out_of_screen`: below the screen, or beyond its left or
right edge. -/
def SmallBall.is_out_of_screen (b : SmallBall) (screen_width screen_height : ℤ) : Bool :=
  let out_lower := decide (b.pos.2 - ((Int.fdiv b.radius 2 : ℤ) : ℚ) > (screen_height : ℚ))
  let out_left := decide (b.pos.1 + ((Int.fdiv b.radius 2 : ℤ) : ℚ) < 0)
  let out_right := decide (b.pos.1 - ((Int.fdiv b.radius 2 : ℤ) : ℚ) > (screen_width : ℚ))
  out_lower || out_left || out_right

/-- State of a `WreckingBall` object. -/
structure State where
  space : List Obj
  wrecking_pos : ℚ × ℚ
  wrecking_vel : ℚ × ℚ
  small_balls_list : List SmallBall
  nextId : ℕ
  config : Config
deriving DecidableEq, Repr

/-- `WreckingBall.__init__`: pygame window, pymunk space with vertical
gravity, and the kinematic wrecking ball with a random velocity (four
random draws) placed at the screen centre and added to the space. -/
def init (rand : ℕ → ℕ) (cfg : Config) : State × List ECall :=
  let velocity_x :=
    pyRandrange (rand 0) cfg.min_velocity_x cfg.max_velocity_x * pyChoice (rand 1) (-1) 1
  let velocity_y :=
    pyRandrange (rand 2) cfg.min_velocity_y cfg.max_velocity_y * pyChoice (rand 3) (-1) 1
  ({ space := [Obj.wreckingBody, Obj.wreckingShape]
     wrecking_pos := ((Int.fdiv cfg.screen_width 2 : ℤ), (Int.fdiv cfg.screen_height 2 : ℤ))
     wrecking_vel := ((velocity_x : ℚ), (velocity_y : ℚ))
     small_balls_list := []
     nextId := 0
     config := cfg },
   [ECall.readConfig, ECall.setMode, ECall.setCaption, ECall.createClock,
    ECall.createSpace, ECall.setGravity] ++ addPair ShapeKind.circle)

/-- The ball-culling loop of `WreckingBall.run_logic`; same Python
iteration semantics as the colorful-flooding one (removing the current
ball skips the next), with an uncaught `AssertionError` if a ball's body
or shape is missing from the space. -/
def cullLoop (screen_width screen_height : ℤ) (i : ℕ)
    (balls : List SmallBall) (sp : List Obj) :
    Except PyErr (List SmallBall × List Obj) × List ECall :=
  if h : i < balls.length then
    let b := balls.get ⟨i, h⟩
    if b.is_out_of_screen screen_width screen_height then
      let balls' := balls.eraseIdx i
      match spaceRemoveSeq sp [Obj.ballBody b.idx, Obj.ballShape b.idx] with
      | (sp', none) =>
          let rest := cullLoop screen_width screen_height (i + 1) balls' sp'
          (rest.1, ECall.spaceRemove :: rest.2)
      | (_, some e) => (Except.error e, [])
    else cullLoop screen_width screen_height (i + 1) balls sp
  else (Except.ok (balls, sp), [])
termination_by balls.length - i
decreasing_by
  · simp only [List.length_eraseIdx, h, if_pos]
    omega
  · omega

/-- `WreckingBall.run_logic`: step the space once (`physWreck` moves the
kinematic wrecking ball from its position and velocity, `physBall` moves
each small ball), bounce the wrecking ball's velocity off the screen edges
(both `if`s read the velocity saved before the first assignment, exactly
as the source does), spawn one new random small ball above the screen, and
cull off-screen balls. -/
def run_logic (physWreck : ℚ × ℚ → ℚ × ℚ → ℚ × ℚ)
    (physBall : ℚ × ℚ → ℚ × ℚ) (rand : ℕ → ℕ) (st : State) :
    Except PyErr State × List ECall :=
  let st1 :=
    { st with
      wrecking_pos := physWreck st.wrecking_pos st.wrecking_vel
      small_balls_list :=
        st.small_balls_list.map fun b : SmallBall => { b with pos := physBall b.pos } }
  let r : ℚ := (st1.config.wrecking_ball_radius : ℚ)
  let velx := st1.wrecking_vel.1
  let vely := st1.wrecking_vel.2
  let x := st1.wrecking_pos.1
  let y := st1.wrecking_pos.2
  let st2 :=
    if x + r > (st1.config.screen_width : ℚ) ∨ x - r < 0 then
      { st1 with wrecking_vel := (-velx, vely) }
    else st1
  let st3 :=
    if y + r > (st2.config.screen_height : ℚ) ∨ y - r < 0 then
      { st2 with wrecking_vel := (velx, -vely) }
    else st2
  let new_small_ball : SmallBall :=
    { idx := st3.nextId
      color := pyChoices3 (rand 1) (rand 2) (rand 3)
      radius := st3.config.small_ball_radius
      mass := st3.config.small_ball_mass
      elasticity := st3.config.elasticity
      friction := st3.config.friction
      pos := ((pyRandrange (rand 0) 0 st3.config.screen_width : ℤ),
              ((Int.fdiv (-st3.config.screen_height) 4 : ℤ) : ℚ)) }
  let st4 :=
    { st3 with
      small_balls_list := st3.small_balls_list ++ [new_small_ball]
      space := st3.space ++ [Obj.ballBody new_small_ball.idx, Obj.ballShape new_small_ball.idx]
      nextId := st3.nextId + 1 }
  let s5 := cullLoop st4.config.screen_width st4.config.screen_height 0
    st4.small_balls_list st4.space
  match s5.1 with
  | Except.ok res =>
      (Except.ok { st4 with small_balls_list := res.1, space := res.2 },
       [ECall.spaceStep (1 / 60)] ++ addPair ShapeKind.circle ++ s5.2)
  | Except.error e =>
      (Except.error e, [ECall.spaceStep (1 / 60)] ++ addPair ShapeKind.circle ++ s5.2)

end WreckingBall

namespace ShootingStar

/-- The relevant entries of `shooting_star/config.yml`. -/
structure Config where
  screen_width : ℤ
  screen_height : ℤ
  gravity : ℚ
  min_radius : ℤ
  max_radius : ℤ
  min_lifespan : ℤ
  max_lifespan : ℤ
  new_sparks_per_time_step : ℕ
deriving DecidableEq, Repr

/-- A `Spark`: a circular pymunk body (mass 10, moment 10) whose drawn
radius shrinks over its lifespan.  `pos` is `body.position`. -/
structure Spark where
  color : List ℕ
  radius : ℤ
  init_radius : ℤ
  lifespan : ℤ
  time_steps_left : ℤ
  pos : ℚ × ℚ
deriving DecidableEq, Repr

/-- `Spark.zero_radius`: decrement the remaining time steps, recompute the
radius by integer floor division, and report whether it reached zero.
Returns the mutated spark together with the returned Boolean. -/
def Spark.zero_radius (s : Spark) : Spark × Bool :=
  let tsl := s.time_steps_left - 1
  let radius := Int.fdiv (s.init_radius * tsl) s.lifespan
  ({ s with time_steps_left := tsl, radius := radius }, radius = 0)

/-- State of a `ShootingStar` object. -/
structure State where
  spark_list : List Spark
  is_mouse_still_pressed : Bool
  config : Config
deriving DecidableEq, Repr

/-- `ShootingStar.__init__`: pygame window and a pymunk space with
vertical gravity; no bodies yet. -/
def init (cfg : Config) : State × List ECall :=
  ({ spark_list := [], is_mouse_still_pressed := false, config := cfg },
   [ECall.readConfig, ECall.setMode, ECall.setCaption, ECall.createClock,
    ECall.createSpace, ECall.setGravity])

/-- `ShootingStar._create_and_add_a_new_spark`: build one spark with a
random colour, radius and lifespan at the mouse position nudged by a
random `±1` (six random draws starting at cursor `cur`), append it to the
spark list and add its body and circle shape to the space. -/
def create_and_add_a_new_spark (rand : ℕ → ℕ) (cur : ℕ) (cfg : Config)
    (st : State) (mouse_pos : ℤ × ℤ) : State × List ECall :=
  let random_color := pyChoices3 (rand cur) (rand (cur + 1)) (rand (cur + 2))
  let random_radius := pyRandrange (rand (cur + 3)) cfg.min_radius cfg.max_radius
  let random_lifespan := pyRandrange (rand (cur + 4)) cfg.min_lifespan cfg.max_lifespan
  let mouse_pos' := (mouse_pos.1 + pyChoice (rand (cur + 5)) (-1) 1, mouse_pos.2)
  let new_spark : Spark :=
    { color := random_color
      radius := random_radius
      init_radius := random_radius
      lifespan := random_lifespan
      time_steps_left := random_lifespan
      pos := ((mouse_pos'.1 : ℚ), (mouse_pos'.2 : ℚ)) }
  ({ st with spark_list := st.spark_list ++ [new_spark] }, addPair ShapeKind.circle)

/-- The spark-creation loop of `ShootingStar.run_logic`: `n` sparks at the
current mouse position, six random draws each. -/
def createSparks (rand : ℕ → ℕ) (cfg : Config) (mouse_pos : ℤ × ℤ) :
    ℕ → ℕ → State → State × List ECall
  | 0, _, st => (st, [])
  | n + 1, cur, st =>
      let r := create_and_add_a_new_spark rand cur cfg st mouse_pos
      let rest := createSparks rand cfg mouse_pos n (cur + 6) r.1
      (rest.1, r.2 ++ rest.2)

/-- The spark-shrinking loop of `ShootingStar.run_logic`:
`for spark in self.spark_list: if spark.zero_radius():
self.spark_list.remove(spark)`.  The sparks are mutated in place; removing
the current spark makes Python's indexed iteration skip the next one, so a
skipped spark keeps its radius this frame.  Sparks are only removed from
the list, never from the space. -/
def shrinkLoop (i : ℕ) (sparks : List Spark) : List Spark :=
  if h : i < sparks.length then
    let r := (sparks.get ⟨i, h⟩).zero_radius
    if r.2 then shrinkLoop (i + 1) ((sparks.set i r.1).eraseIdx i)
    else shrinkLoop (i + 1) (sparks.set i r.1)
  else sparks
termination_by sparks.length - i
decreasing_by
  · simp only [List.length_eraseIdx, List.length_set, h, if_pos]
    omega
  · simp only [List.length_set]
    omega

/-- `ShootingStar.run_logic`: step the space once (`phys` moves each
spark), create new sparks at the real-time mouse position while the mouse
is held down, then shrink every spark and drop the ones that hit radius
zero. -/
def run_logic (phys : ℚ × ℚ → ℚ × ℚ) (rand : ℕ → ℕ) (mouse_pos : ℤ × ℤ)
    (st : State) : State × List ECall :=
  let st1 :=
    { st with spark_list := st.spark_list.map fun s : Spark => { s with pos := phys s.pos } }
  let s2 :=
    if st1.is_mouse_still_pressed then
      createSparks rand st1.config mouse_pos st1.config.new_sparks_per_time_step 0 st1
    else (st1, [])
  ({ s2.1 with spark_list := shrinkLoop 0 s2.1.spark_list },
   [ECall.spaceStep (1 / 60)] ++ s2.2)

end ShootingStar

namespace ReboundCollisions

/-- The relevant entries of `rebound_collisions/config.yml`. -/
structure Config where
  screen_width : ℤ
  screen_height : ℤ
  min_mass : ℤ
  max_mass : ℤ
  min_moment : ℤ
  max_moment : ℤ
  min_radius : ℤ
  max_radius : ℤ
  min_velocity_x : ℤ
  max_velocity_x : ℤ
  min_velocity_y : ℤ
  max_velocity_y : ℤ
deriving DecidableEq, Repr

/-- A `Circle`: a dynamic pymunk body with elasticity 1 and friction 0.
`pos` and `vel` are `body.position` and `body.velocity`. -/
structure Circle where
  mass : ℤ
  moment : ℤ
  radius : ℤ
  color : List ℕ
  pos : ℚ × ℚ
  vel : ℚ × ℚ
deriving DecidableEq, Repr

/-- `Circle.update`: reverse the horizontal and/or vertical velocity when
the circle touches the corresponding screen edges. -/
def Circle.update (screen_width screen_height : ℤ) (c : Circle) : Circle :=
  let velocity_x := c.vel.1
  let velocity_y := c.vel.2
  let velocity_x :=
    if c.pos.1 + (c.radius : ℚ) > (screen_width : ℚ) ∨ c.pos.1 - (c.radius : ℚ) < 0 then
      -velocity_x
    else velocity_x
  let velocity_y :=
    if c.pos.2 + (c.radius : ℚ) > (screen_height : ℚ) ∨ c.pos.2 - (c.radius : ℚ) < 0 then
      -velocity_y
    else velocity_y
  { c with vel := (velocity_x, velocity_y) }

/-- State of a `ReboundCollisions` object. -/
structure State where
  circle_list : List Circle
  mouse_pos : Option (ℤ × ℤ)
  config : Config
deriving DecidableEq, Repr

/-- `ReboundCollisions._create_and_add_a_new_circle`: build one circle
with random mass, moment, radius, velocity and colour (ten random draws
starting at cursor `cur`, in source order), append it to the circle list
and add its body and circle shape to the space. -/
def create_and_add_a_new_circle (rand : ℕ → ℕ) (cur : ℕ) (cfg : Config)
    (st : State) (center : ℤ × ℤ) : State × List ECall :=
  let random_mass := pyRandrange (rand cur) cfg.min_mass cfg.max_mass
  let random_moment := pyRandrange (rand (cur + 1)) cfg.min_moment cfg.max_moment
  let random_radius := pyRandrange (rand (cur + 2)) cfg.min_radius cfg.max_radius
  let random_velocity_x :=
    pyRandrange (rand (cur + 3)) cfg.min_velocity_x cfg.max_velocity_x *
      pyChoice (rand (cur + 4)) (-1) 1
  let random_velocity_y :=
    pyRandrange (rand (cur + 5)) cfg.min_velocity_y cfg.max_velocity_y *
      pyChoice (rand (cur + 6)) (-1) 1
  let random_color := pyChoices3 (rand (cur + 7)) (rand (cur + 8)) (rand (cur + 9))
  let new_circle : Circle :=
    { mass := random_mass, moment := random_moment, radius := random_radius
      color := random_color
      pos := ((center.1 : ℚ), (center.2 : ℚ))
      vel := ((random_velocity_x : ℚ), (random_velocity_y : ℚ)) }
  ({ st with circle_list := st.circle_list ++ [new_circle] }, addPair ShapeKind.circle)

/-- `ReboundCollisions.__init__`: pygame window (no caption is set in the
constructor), pymunk space with gravity disabled, and one random circle
created at the screen centre. -/
def init (rand : ℕ → ℕ) (cfg : Config) : State × List ECall :=
  let st0 : State := { circle_list := [], mouse_pos := none, config := cfg }
  let r := create_and_add_a_new_circle rand 0 cfg st0
    (Int.fdiv cfg.screen_width 2, Int.fdiv cfg.screen_height 2)
  (r.1,
   [ECall.readConfig, ECall.setMode, ECall.createClock,
    ECall.createSpace, ECall.setGravity] ++ r.2)

/-- `ReboundCollisions.run_logic`: step the space once (`phys` moves each
circle and updates its velocity), bounce every circle off the screen
edges, create a circle at the stored mouse click if there is one, and
refresh the caption. -/
def run_logic (phys : (ℚ × ℚ) × (ℚ × ℚ) → (ℚ × ℚ) × (ℚ × ℚ)) (rand : ℕ → ℕ)
    (st : State) : State × List ECall :=
  let st1 :=
    { st with circle_list :=
        st.circle_list.map fun c : Circle =>
          let pv := phys (c.pos, c.vel)
          { c with pos := pv.1, vel := pv.2 } }
  let st2 :=
    { st1 with circle_list :=
        st1.circle_list.map (Circle.update st1.config.screen_width st1.config.screen_height) }
  let s3 :=
    match st2.mouse_pos with
    | some mp =>
        let r := create_and_add_a_new_circle rand 0 st2.config st2 mp
        ({ r.1 with mouse_pos := none }, r.2)
    | none => (st2, [])
  (s3.1, [ECall.spaceStep (1 / 60)] ++ s3.2 ++ [ECall.setCaption])

end ReboundCollisions

/-- One phase of a frame-loop iteration, with the value returned by
`process_events` recorded. -/
inductive Phase where
  | procEvents (running : Bool) : Phase
  | runLogic : Phase
  | draw : Phase
  | clockTick : Phase
deriving DecidableEq, Repr

/-- The trace of one full iteration of the frame loop whose
`process_events` returned `b`. -/
def iterBlock (b : Bool) : List Phase :=
  [Phase.procEvents b, Phase.runLogic, Phase.draw, Phase.clockTick]

/-- The `__main__` frame loop shared verbatim by all seven simulation
modules:

    running = True
    while running:
        running = sim.process_events()
        sim.run_logic()
        sim.draw()
        sim.clock_tick()

parametrised by the simulation object's four methods.  The loop has no
termination guarantee of its own, so the model carries `fuel`; it returns
`some` final state when the loop exited (because `process_events` returned
`False`) and `none` when the fuel ran out with the loop still running,
together with the trace of executed phases. -/
def mainLoop {S : Type} (procEv : S → Bool × S) (logic draw tick : S → S) :
    ℕ → S → Option S × List Phase
  | 0, _ => (none, [])
  | fuel + 1, s =>
      let pr := procEv s
      let s2 := logic pr.2
      let s3 := draw s2
      let s4 := tick s3
      if pr.1 then
        let rest := mainLoop procEv logic draw tick fuel s4
        (rest.1, iterBlock pr.1 ++ rest.2)
      else (some s4, iterBlock pr.1)

theorem pizza_update_bounds (v r : Option ℤ) (p : PizzaRain.Pizza)
    (hv : 1 ≤ p.vertical_speed) (hr : 1 ≤ p.rotation_every) :
    1 ≤ (PizzaRain.Pizza.update v r p).vertical_speed ∧
      1 ≤ (PizzaRain.Pizza.update v r p).rotation_every := by
  cases v with
  | some v => exact ⟨le_max_left 1 _, hr⟩
  | none =>
    cases r with
    | some r => exact ⟨hv, le_max_left 1 _⟩
    | none =>
      simp only [PizzaRain.Pizza.update]
      split <;> split <;> exact ⟨hv, hr⟩

theorem pizza_updates_bounds (calls : List (Option ℤ × Option ℤ))
    (p : PizzaRain.Pizza) (hv : 1 ≤ p.vertical_speed) (hr : 1 ≤ p.rotation_every) :
    1 ≤ (PizzaRain.Pizza.updates calls p).vertical_speed ∧
      1 ≤ (PizzaRain.Pizza.updates calls p).rotation_every := by
  induction calls generalizing p with
  | nil => exact ⟨hv, hr⟩
  | cons c cs ih =>
    have h := pizza_update_bounds c.1 c.2 p hv hr
    exact ih _ h.1 h.2

/-- C10: a `Pizza` constructed with `vertical_speed ≥ 1` and
`rotation_every ≥ 1` keeps both attributes at least 1 after any sequence
of `Pizza.update` calls, whatever (possibly negative) increments the
calls pass. -/
theorem pizza_speed_and_rotation_stay_positive
    (fs : String → Bool) (path : String) (vs re d sh : ℤ) (p : PizzaRain.Pizza)
    (hp : PizzaRain.Pizza.init fs path vs re d sh = Except.ok p)
    (hv : 1 ≤ vs) (hr : 1 ≤ re) (calls : List (Option ℤ × Option ℤ)) :
    1 ≤ (PizzaRain.Pizza.updates calls p).vertical_speed ∧
      1 ≤ (PizzaRain.Pizza.updates calls p).rotation_every := by
  have hvp : p.vertical_speed = vs ∧ p.rotation_every = re := by
    by_cases hfs : fs path
    · simp only [PizzaRain.Pizza.init, hfs, if_pos, Except.ok.injEq] at hp
      rw [← hp]
      exact ⟨rfl, rfl⟩
    · simp [PizzaRain.Pizza.init, hfs] at hp
  exact pizza_updates_bounds calls p (hvp.1 ▸ hv) (hvp.2 ▸ hr)

/-- Witness for C10: a concrete pizza with speed 3 and rotation period 2,
hit by a large negative speed increment, a negative rotation increment and
a plain movement update, keeps both attributes at least 1. -/
theorem pizza_speed_and_rotation_stay_positive_witness :
    1 ≤ (PizzaRain.Pizza.updates
        [(some (-100), none), (none, some (-7)), (none, none)]
        { imageQuarterTurns := 0, rect := { x := 0, y := 0, w := 50, h := 50 }
          vertical_speed := 3, rotation_every := 2, diameter := 50
          screen_height := 600, n_updates := 0 }).vertical_speed ∧
      1 ≤ (PizzaRain.Pizza.updates
        [(some (-100), none), (none, some (-7)), (none, none)]
        { imageQuarterTurns := 0, rect := { x := 0, y := 0, w := 50, h := 50 }
          vertical_speed := 3, rotation_every := 2, diameter := 50
          screen_height := 600, n_updates := 0 }).rotation_every :=
  pizza_speed_and_rotation_stay_positive (fun _ => true) "pizza.png" 3 2 50 600 _
    rfl (by decide) (by decide) [(some (-100), none), (none, some (-7)), (none, none)]

/-- C9: `SandClock._flip_vertically` maps each grain `(x, y)` to
`(x, 2 * structure_center_y - y)` and is an involution on the sand-grain
positions: applying it twice restores the state exactly. -/
theorem sandclock_flip_vertically_involution (st : SandClock.State) :
    SandClock.flip_vertically (SandClock.flip_vertically st) = st ∧
      (SandClock.flip_vertically st).sand_grains_list =
        st.sand_grains_list.map (fun g : SandClock.SandGrain =>
          { g with pos :=
              (g.pos.1, 2 * (st.sand_clock_structure.center.2 : ℚ) - g.pos.2) }) := by
  refine ⟨?_, rfl⟩
  cases st with
  | mk s grains tip res cfg =>
    simp only [SandClock.flip_vertically, List.map_map, SandClock.State.mk.injEq,
      and_true, true_and]
    induction grains with
    | nil => rfl
    | cons g gs ih =>
      simp only [List.map_cons, List.cons.injEq]
      refine ⟨?_, ih⟩
      cases g with
      | mk c r m p =>
        cases p with
        | mk px py =>
          simp only [Function.comp_apply, SandClock.SandGrain.mk.injEq, Prod.mk.injEq,
            true_and]
          ring

theorem cf_removeBottomPhase_id (st : ColorfulFlooding.State)
    (hflag : st.remove_screen_bottom = true)
    (habs : ColorfulFlooding.Obj.bottomBody ∉ st.space) :
    ColorfulFlooding.removeBottomPhase st = (st, []) := by
  cases st with
  | mk sp srcs balls cnt flag nid cfg =>
    simp only at hflag
    subst hflag
    simp [ColorfulFlooding.removeBottomPhase, spaceRemoveSeq, habs]

/-- C7 (amended): the repository's own failure handling consists of the
double-removal suppression in `ColorfulFlooding.run_logic` plus two
constructors that raise their own validation errors: `SandGrain.__init__`
raises `ValueError` on a `color_type` other than `'random'`/`'yellow'`,
and `Pizza.__init__` raises `ValueError` when the image path does not
exist. -/
theorem repository_error_handling
    : (∀ (rand : ℕ → ℕ) (cur : ℕ) (center : ℚ × ℚ) (radius mass : ℤ) (ct : String),
        ct ≠ "random" → ct ≠ "yellow" →
        SandClock.SandGrain.init rand cur center radius mass ct =
          Except.error (PyErr.valueError
            ("'color_type' must be either 'random' or 'yellow'," ++
              "but " ++ ct ++ " was given."))) ∧
      (∀ (fs : String → Bool) (path : String) (vs re d sh : ℤ),
        fs path = false →
        PizzaRain.Pizza.init fs path vs re d sh =
          Except.error (PyErr.valueError "The given pizza_img_path does not exists")) ∧
      (∀ st : ColorfulFlooding.State, st.remove_screen_bottom = true →
        ColorfulFlooding.Obj.bottomBody ∉ st.space →
        ColorfulFlooding.removeBottomPhase st = (st, [])) := by
  refine ⟨?_, ?_, ?_⟩
  · intro rand cur center radius mass ct h1 h2
    simp [SandClock.SandGrain.init, h1, h2]
  · intro fs path vs re d sh hfs
    simp [PizzaRain.Pizza.init, hfs]
  · exact cf_removeBottomPhase_id

/-- Witness for C7: the concrete instances — `SandGrain` with
`color_type='blue'` raises, `Pizza` with a missing image path raises, and
a `run_logic` teardown on a space without the bottom segment leaves the
state untouched. -/
theorem repository_error_handling_witness :
    SandClock.SandGrain.init (fun _ => 0) 0 (0, 0) 3 1 "blue" =
        Except.error (PyErr.valueError
          "'color_type' must be either 'random' or 'yellow',but blue was given.") ∧
      PizzaRain.Pizza.init (fun _ => false) "missing.png" 1 1 50 600 =
        Except.error (PyErr.valueError "The given pizza_img_path does not exists") ∧
      ColorfulFlooding.removeBottomPhase
          { space := [ColorfulFlooding.Obj.upperBody], sources_positions := []
            balls_list := [], counter := 0, remove_screen_bottom := true
            nextId := 0
            config := { screen_width := 700, screen_height := 700, gravity := 900
                        n_sources := 2, create_balls_every := 5, mass := 1
                        radius := 10, elasticity := 0, friction := 1 } } =
        ({ space := [ColorfulFlooding.Obj.upperBody], sources_positions := []
           balls_list := [], counter := 0, remove_screen_bottom := true
           nextId := 0
           config := { screen_width := 700, screen_height := 700, gravity := 900
                       n_sources := 2, create_balls_every := 5, mass := 1
                       radius := 10, elasticity := 0, friction := 1 } }, []) :=
  ⟨repository_error_handling.1 (fun _ => 0) 0 (0, 0) 3 1 "blue"
      (by decide) (by decide),
    repository_error_handling.2.1 (fun _ => false) "missing.png" 1 1 50 600 rfl,
    repository_error_handling.2.2 _ rfl (by decide)⟩

/-- Counterexample to C7 as stated: `SandGrain.__init__` does raise its
own validation error on the concrete bad input `color_type='blue'`. -/
theorem sandgrain_init_raises_on_bad_color_type :
    SandClock.SandGrain.init (fun _ => 0) 0 (0, 0) 3 1 "blue" =
      Except.error (PyErr.valueError
        "'color_type' must be either 'random' or 'yellow',but blue was given.") := by
  rfl

/-- C4 (amended): not every state-updating operation depends on randomness
or real-time input: `Planet.update` is a deterministic function of the
planet alone (it reads no random stream), while the spark creation of
`ShootingStar` does depend on the random stream. -/
theorem updates_not_all_nondeterministic :
    (∀ (r1 r2 : ℕ → ℕ) (p : SolarSystem.Planet),
        SolarSystem.Planet.updateWithRand r1 p = SolarSystem.Planet.updateWithRand r2 p) ∧
      (∃ (r1 r2 : ℕ → ℕ) (cfg : ShootingStar.Config) (st : ShootingStar.State)
          (mp : ℤ × ℤ),
        ShootingStar.create_and_add_a_new_spark r1 0 cfg st mp ≠
          ShootingStar.create_and_add_a_new_spark r2 0 cfg st mp) := by
  constructor
  · intro r1 r2 p
    rfl
  · refine ⟨fun _ => 0, fun _ => 1,
      { screen_width := 700, screen_height := 700, gravity := 1000
        min_radius := 5, max_radius := 12, min_lifespan := 20, max_lifespan := 40
        new_sparks_per_time_step := 3 },
      { spark_list := [], is_mouse_still_pressed := true
        config := { screen_width := 700, screen_height := 700, gravity := 1000
                    min_radius := 5, max_radius := 12, min_lifespan := 20
                    max_lifespan := 40, new_sparks_per_time_step := 3 } },
      (100, 100), ?_⟩
    decide

/-- Counterexample to C4 as stated: at a concrete planet, `Planet.update`
returns the same result under two distinct random streams — the update is
a deterministic function of its explicit inputs. -/
theorem planet_update_same_under_distinct_random_streams :
    (fun _ : ℕ => 0) 0 ≠ (fun n : ℕ => n + 1) 0 ∧
      SolarSystem.Planet.updateWithRand (fun _ => 0)
          (SolarSystem.Planet.init (0, 0) 5 2 true (0, 0, 0) (3, 4)) =
        SolarSystem.Planet.updateWithRand (fun n => n + 1)
          (SolarSystem.Planet.init (0, 0) 5 2 true (0, 0, 0) (3, 4)) :=
  ⟨by decide, rfl⟩

/-- C6: the frame loop shared by all seven `__main__` blocks executes, on
every iteration, `process_events`, then `run_logic`, then `draw`, then
`clock_tick`, in that order; its trace is a sequence of such blocks whose
`process_events` results are `True` except possibly a final `False`, and
the loop terminates (returns a final state) exactly when `process_events`
returned `False`. -/
theorem frame_loop_order_and_termination {S : Type}
    (procEv : S → Bool × S) (logic draw tick : S → S) (fuel : ℕ) (s : S) :
    ∃ n : ℕ,
      ((mainLoop procEv logic draw tick fuel s).2 =
          ((List.replicate n true).map iterBlock).flatten ∧
        (mainLoop procEv logic draw tick fuel s).1 = none) ∨
      ((mainLoop procEv logic draw tick fuel s).2 =
          (((List.replicate n true).map iterBlock).flatten ++ iterBlock false) ∧
        ∃ s', (mainLoop procEv logic draw tick fuel s).1 = some s') := by
  induction fuel generalizing s with
  | zero => exact ⟨0, Or.inl ⟨rfl, rfl⟩⟩
  | succ fuel ih =>
    by_cases hb : (procEv s).1
    · obtain ⟨n, hn⟩ := ih (tick (draw (logic (procEv s).2)))
      refine ⟨n + 1, ?_⟩
      simp only [mainLoop, hb, if_true, List.replicate_succ, List.map_cons,
        List.flatten_cons]
      rcases hn with ⟨h2, h1⟩ | ⟨h2, s', h1⟩
      · exact Or.inl ⟨by rw [h2], h1⟩
      · exact Or.inr ⟨by rw [h2, List.append_assoc], s', h1⟩
    · rw [Bool.not_eq_true] at hb
      refine ⟨0, Or.inr ⟨?_, ?_⟩⟩
      · simp [mainLoop, hb]
      · refine ⟨tick (draw (logic (procEv s).2)), ?_⟩
        simp [mainLoop, hb]

theorem rescale_dist (sx sy nx ny R D : ℝ) (hD : 0 < D) (hR : 0 ≤ R)
    (hN : (sx - nx) ^ 2 + (sy - ny) ^ 2 = D) :
    Real.sqrt
        ((sx - (sx + (nx - sx) / Real.sqrt ((sx - nx) ^ 2 + (sy - ny) ^ 2) * R)) ^ 2 +
          (sy - (sy + (ny - sy) / Real.sqrt ((sx - nx) ^ 2 + (sy - ny) ^ 2) * R)) ^ 2) = R := by
  have hD0 : (0 : ℝ) < (sx - nx) ^ 2 + (sy - ny) ^ 2 := hN ▸ hD
  set N := Real.sqrt ((sx - nx) ^ 2 + (sy - ny) ^ 2) with hNdef
  have hNpos : 0 < N := Real.sqrt_pos.mpr hD0
  have hNne : N ≠ 0 := ne_of_gt hNpos
  have hNsq : N ^ 2 = (sx - nx) ^ 2 + (sy - ny) ^ 2 := Real.sq_sqrt hD0.le
  have key : (sx - (sx + (nx - sx) / N * R)) ^ 2 + (sy - (sy + (ny - sy) / N * R)) ^ 2
      = R ^ 2 := by
    have expand : (sx - (sx + (nx - sx) / N * R)) ^ 2 + (sy - (sy + (ny - sy) / N * R)) ^ 2
        = ((sx - nx) ^ 2 + (sy - ny) ^ 2) * (R / N) ^ 2 := by ring
    rw [expand, ← hNsq]
    field_simp
  rw [key, Real.sqrt_sq hR]

theorem planet_update_dist (p : SolarSystem.Planet)
    (hc : p.center ≠ p.screen_center) (hR : 0 ≤ p.original_vector_norm) :
    SolarSystem.distTo (SolarSystem.Planet.update p).center p.screen_center =
      p.original_vector_norm := by
  obtain ⟨⟨cx, cy⟩, rad, t, cw, col, ⟨sx, sy⟩, R⟩ := p
  simp only at hc hR
  have h' : cx ≠ sx ∨ cy ≠ sy := by
    by_contra hcon
    push_neg at hcon
    exact hc (by rw [hcon.1, hcon.2])
  have hD : 0 < (sx - cx) ^ 2 + (sy - cy) ^ 2 := by
    rcases h' with h | h
    · nlinarith [sq_nonneg (sy - cy),
        pow_two_pos_of_ne_zero (sub_ne_zero.mpr (Ne.symm h))]
    · nlinarith [sq_nonneg (sx - cx),
        pow_two_pos_of_ne_zero (sub_ne_zero.mpr (Ne.symm h))]
  have ht : (0 : ℝ) < 1 + t ^ 2 := by positivity
  cases cw with
  | true =>
    simp only [SolarSystem.Planet.update, SolarSystem.distTo, if_true]
    exact rescale_dist sx sy (t * (sy - cy) + cx) (t * -(sx - cx) + cy) R
      (((sx - cx) ^ 2 + (sy - cy) ^ 2) * (1 + t ^ 2)) (mul_pos hD ht) hR (by ring)
  | false =>
    simp only [SolarSystem.Planet.update, SolarSystem.distTo, Bool.false_eq_true,
      if_false]
    exact rescale_dist sx sy (t * -(sy - cy) + cx) (t * (sx - cx) + cy) R
      (((sx - cx) ^ 2 + (sy - cy) ^ 2) * (1 + t ^ 2)) (mul_pos hD ht) hR (by ring)

theorem planet_iterate_fixed_fields (p : SolarSystem.Planet) (n : ℕ) :
    ((SolarSystem.Planet.update)^[n] p).screen_center = p.screen_center ∧
      ((SolarSystem.Planet.update)^[n] p).original_vector_norm =
        p.original_vector_norm := by
  induction n with
  | zero => exact ⟨rfl, rfl⟩
  | succ n ih =>
    rw [Function.iterate_succ_apply']
    exact ⟨ih.1, ih.2⟩

/-- C8: a `Planet` constructed with its centre distinct from the screen
centre keeps its exact distance to the screen centre equal to
`original_vector_norm` after any number of `Planet.update` calls: the
orbit radius is invariant. -/
theorem planet_orbit_radius_invariant (init_center screen_center : ℝ × ℝ)
    (radius translation_step : ℝ) (cw : Bool) (color : ℕ × ℕ × ℕ)
    (h : init_center ≠ screen_center) (n : ℕ) :
    SolarSystem.distTo
        ((SolarSystem.Planet.update)^[n]
          (SolarSystem.Planet.init init_center radius translation_step cw color
            screen_center)).center
        screen_center =
      (SolarSystem.Planet.init init_center radius translation_step cw color
        screen_center).original_vector_norm := by
  have h' : init_center.1 ≠ screen_center.1 ∨ init_center.2 ≠ screen_center.2 := by
    by_contra hcon
    push_neg at hcon
    exact h (Prod.ext hcon.1 hcon.2)
  have hD : 0 < (screen_center.1 - init_center.1) ^ 2 +
      (screen_center.2 - init_center.2) ^ 2 := by
    rcases h' with hcomp | hcomp
    · nlinarith [sq_nonneg (screen_center.2 - init_center.2),
        pow_two_pos_of_ne_zero (sub_ne_zero.mpr (Ne.symm hcomp))]
    · nlinarith [sq_nonneg (screen_center.1 - init_center.1),
        pow_two_pos_of_ne_zero (sub_ne_zero.mpr (Ne.symm hcomp))]
  have hRpos : 0 < (SolarSystem.Planet.init init_center radius translation_step cw
      color screen_center).original_vector_norm := Real.sqrt_pos.mpr hD
  induction n with
  | zero => rfl
  | succ n ih =>
    have hfields := planet_iterate_fixed_fields
      (SolarSystem.Planet.init init_center radius translation_step cw color
        screen_center) n
    have hsc : ((SolarSystem.Planet.update)^[n]
        (SolarSystem.Planet.init init_center radius translation_step cw color
          screen_center)).screen_center = screen_center := hfields.1
    have hcne : ((SolarSystem.Planet.update)^[n]
        (SolarSystem.Planet.init init_center radius translation_step cw color
          screen_center)).center ≠
        ((SolarSystem.Planet.update)^[n]
          (SolarSystem.Planet.init init_center radius translation_step cw color
            screen_center)).screen_center := by
      rw [hsc]
      intro hEq
      rw [hEq] at ih
      have hzero : SolarSystem.distTo screen_center screen_center = 0 := by
        simp [SolarSystem.distTo]
      rw [hzero] at ih
      exact absurd ih.symm (ne_of_gt hRpos)
    have hstep := planet_update_dist _ hcne (by rw [hfields.2]; exact hRpos.le)
    rw [hsc, hfields.2] at hstep
    rw [Function.iterate_succ_apply']
    exact hstep

/-- Witness for C8: the concrete planet starting at `(0, 0)` with screen
centre `(3, 4)` (distance 5) and translation step 2 is still at its
original distance after one update. -/
theorem planet_orbit_radius_invariant_witness :
    SolarSystem.distTo
        ((SolarSystem.Planet.update)^[1]
          (SolarSystem.Planet.init (0, 0) 5 2 true (0, 0, 0) (3, 4))).center
        (3, 4) =
      (SolarSystem.Planet.init (0, 0) 5 2 true (0, 0, 0)
        (3, 4)).original_vector_norm :=
  planet_orbit_radius_invariant (0, 0) (3, 4) 5 2 true (0, 0, 0)
    (by norm_num [Prod.ext_iff]) 1

theorem stepCount_eq_zero_of_tame {tr : List ECall} (h : ∀ c ∈ tr, tame c) :
    stepCount tr = 0 := by
  rw [stepCount, List.countP_eq_zero]
  intro c hc
  have hc' := h c hc
  cases c <;> simp_all [tame]

theorem addsOnlyCircSeg_of_tame {tr : List ECall} (h : ∀ c ∈ tr, tame c) :
    addsOnlyCircSeg tr := by
  intro k hk
  have hc' := h _ hk
  cases k with
  | circle => exact Or.inl rfl
  | segment => exact Or.inr rfl
  | poly => exact absurd hc' (by simp [tame])

theorem tame_append {t1 t2 : List ECall} (h1 : ∀ c ∈ t1, tame c)
    (h2 : ∀ c ∈ t2, tame c) : ∀ c ∈ t1 ++ t2, tame c := by
  intro c hc
  rcases List.mem_append.mp hc with h | h
  exacts [h1 c h, h2 c h]

theorem tame_addPair {k : ShapeKind} (hk : k ≠ ShapeKind.poly) :
    ∀ c ∈ addPair k, tame c := by
  intro c hc
  simp only [addPair, List.mem_cons, List.not_mem_nil, or_false] at hc
  rcases hc with rfl | rfl
  · trivial
  · cases k with
    | circle => trivial
    | segment => trivial
    | poly => exact absurd rfl hk

theorem tame_flatMap {α : Type} {l : List α} {f : α → List ECall}
    (h : ∀ a ∈ l, ∀ c ∈ f a, tame c) : ∀ c ∈ l.flatMap f, tame c := by
  intro c hc
  rcases List.mem_flatMap.mp hc with ⟨a, ha, hca⟩
  exact h a ha c hca

theorem stepCount_append (t1 t2 : List ECall) :
    stepCount (t1 ++ t2) = stepCount t1 + stepCount t2 :=
  List.countP_append _ _ _

theorem addsOnlyCircSeg_append {t1 t2 : List ECall} (h1 : addsOnlyCircSeg t1)
    (h2 : addsOnlyCircSeg t2) : addsOnlyCircSeg (t1 ++ t2) := by
  intro k hk
  rcases List.mem_append.mp hk with h | h
  exacts [h1 k h, h2 k h]

theorem addsOnlyCircSeg_step (dt : ℚ) : addsOnlyCircSeg [ECall.spaceStep dt] := by
  intro k hk
  simp at hk

theorem cf_ballAdds_tame (bs : List ColorfulFlooding.Ball) :
    ∀ c ∈ ColorfulFlooding.ballAdds bs, tame c :=
  tame_flatMap fun _ _ => tame_addPair (by decide)

theorem cf_spawnPhase_tame (rand : ℕ → ℕ) (st : ColorfulFlooding.State) :
    ∀ c ∈ (ColorfulFlooding.spawnPhase rand st).2, tame c := by
  intro c hc
  dsimp only [ColorfulFlooding.spawnPhase] at hc
  split at hc
  · exact cf_ballAdds_tame _ c hc
  · simp at hc

theorem cf_removeBottomPhase_tame (st : ColorfulFlooding.State) :
    ∀ c ∈ (ColorfulFlooding.removeBottomPhase st).2, tame c := by
  intro c hc
  unfold ColorfulFlooding.removeBottomPhase at hc
  split at hc
  · split at hc
    · simp only at hc
      rcases List.mem_cons.mp hc with rfl | hc'
      · trivial
      · rcases List.mem_cons.mp hc' with rfl | hc''
        · trivial
        · simp at hc''
    · simp at hc
  · simp at hc

theorem cf_cullLoop_tame (sh : ℤ) :
    ∀ (k i : ℕ) (balls : List ColorfulFlooding.Ball)
      (sp : List ColorfulFlooding.Obj),
      balls.length - i ≤ k →
      ∀ c ∈ (ColorfulFlooding.cullLoop sh i balls sp).2, tame c := by
  intro k
  induction k with
  | zero =>
    intro i balls sp hk c hc
    unfold ColorfulFlooding.cullLoop at hc
    rw [dif_neg (by omega)] at hc
    simp at hc
  | succ k ih =>
    intro i balls sp hk c hc
    unfold ColorfulFlooding.cullLoop at hc
    by_cases h : i < balls.length
    · rw [dif_pos h] at hc
      by_cases hout : (balls.get ⟨i, h⟩).is_out_of_the_screen sh
      · rw [if_pos hout] at hc
        split at hc
        · simp only at hc
          rcases List.mem_cons.mp hc with rfl | hc'
          · trivial
          · refine ih (i + 1) _ _ ?_ c hc'
            simp only [List.length_eraseIdx, h, if_pos]
            omega
        · simp at hc
      · rw [if_neg hout] at hc
        exact ih (i + 1) balls sp (by omega) c hc
    · rw [dif_neg h] at hc
      simp at hc

theorem wb_cullLoop_tame (sw sh : ℤ) :
    ∀ (k i : ℕ) (balls : List WreckingBall.SmallBall)
      (sp : List WreckingBall.Obj),
      balls.length - i ≤ k →
      ∀ c ∈ (WreckingBall.cullLoop sw sh i balls sp).2, tame c := by
  intro k
  induction k with
  | zero =>
    intro i balls sp hk c hc
    unfold WreckingBall.cullLoop at hc
    rw [dif_neg (by omega)] at hc
    simp at hc
  | succ k ih =>
    intro i balls sp hk c hc
    unfold WreckingBall.cullLoop at hc
    by_cases h : i < balls.length
    · rw [dif_pos h] at hc
      by_cases hout : (balls.get ⟨i, h⟩).is_out_of_screen sw sh
      · rw [if_pos hout] at hc
        split at hc
        · simp only at hc
          rcases List.mem_cons.mp hc with rfl | hc'
          · trivial
          · refine ih (i + 1) _ _ ?_ c hc'
            simp only [List.length_eraseIdx, h, if_pos]
            omega
        · simp at hc
      · rw [if_neg hout] at hc
        exact ih (i + 1) balls sp (by omega) c hc
    · rw [dif_neg h] at hc
      simp at hc

theorem shoot_createSparks_tame (rand : ℕ → ℕ) (cfg : ShootingStar.Config)
    (mp : ℤ × ℤ) :
    ∀ (n cur : ℕ) (st : ShootingStar.State),
      ∀ c ∈ (ShootingStar.createSparks rand cfg mp n cur st).2, tame c := by
  intro n
  induction n with
  | zero =>
    intro cur st c hc
    simp [ShootingStar.createSparks] at hc
  | succ n ih =>
    intro cur st c hc
    simp only [ShootingStar.createSparks,
      ShootingStar.create_and_add_a_new_spark] at hc
    rcases List.mem_append.mp hc with h | h
    · exact tame_addPair (by decide) c h
    · exact ih _ _ c h

theorem pizza_buildPizzas_loadImage (fs : String → Bool) (rand : ℕ → ℕ)
    (fuel : ℕ) (dir_path : String) (cfg : PizzaRain.Config) :
    ∀ (n cur : ℕ) (group : List PizzaRain.Pizza),
      ∀ c ∈ (PizzaRain.buildPizzas fs rand fuel dir_path cfg n cur group).2,
        c = ECall.loadImage := by
  intro n
  induction n with
  | zero =>
    intro cur group c hc
    simp [PizzaRain.buildPizzas] at hc
  | succ n ih =>
    intro cur group c hc
    dsimp only [PizzaRain.buildPizzas] at hc
    split at hc
    · simp at hc
    · rcases List.mem_cons.mp hc with rfl | hc'
      · rfl
      · exact ih _ _ c hc'

theorem sand_init_tame (rand : ℕ → ℕ) (cfg : SandClock.Config) :
    ∀ c ∈ (SandClock.init rand cfg).2, tame c := by
  have hpre : ∀ c ∈ [ECall.readConfig, ECall.setMode, ECall.setCaption,
      ECall.createClock, ECall.createSpace, ECall.setGravity], tame c := by
    intro c hc
    fin_cases hc <;> trivial
  have hstruct : ∀ c ∈ (List.range 6).flatMap
      (fun _ => addPair ShapeKind.segment), tame c :=
    tame_flatMap fun _ _ => tame_addPair (by decide)
  intro c hc
  simp only [SandClock.init] at hc
  split at hc
  · exact tame_append hpre hstruct c hc
  · exact tame_append (tame_append hpre hstruct)
      (tame_flatMap fun _ _ => tame_addPair (by decide)) c hc

theorem cf_init_tame (cfg : ColorfulFlooding.Config) :
    ∀ c ∈ (ColorfulFlooding.init cfg).2, tame c := by
  have hpre : ∀ c ∈ [ECall.readConfig, ECall.setMode, ECall.setCaption,
      ECall.createClock, ECall.createSpace, ECall.setGravity], tame c := by
    intro c hc
    fin_cases hc <;> trivial
  intro c hc
  simp only [ColorfulFlooding.init] at hc
  exact tame_append (tame_append (tame_append (tame_append hpre
    (tame_addPair (by decide))) (tame_addPair (by decide)))
    (tame_addPair (by decide))) (tame_addPair (by decide)) c hc

theorem wb_init_tame (rand : ℕ → ℕ) (cfg : WreckingBall.Config) :
    ∀ c ∈ (WreckingBall.init rand cfg).2, tame c := by
  have hpre : ∀ c ∈ [ECall.readConfig, ECall.setMode, ECall.setCaption,
      ECall.createClock, ECall.createSpace, ECall.setGravity], tame c := by
    intro c hc
    fin_cases hc <;> trivial
  intro c hc
  simp only [WreckingBall.init] at hc
  exact tame_append hpre (tame_addPair (by decide)) c hc

theorem shoot_init_tame (cfg : ShootingStar.Config) :
    ∀ c ∈ (ShootingStar.init cfg).2, tame c := by
  intro c hc
  simp only [ShootingStar.init] at hc
  fin_cases hc <;> trivial

theorem rebound_init_tame (rand : ℕ → ℕ) (cfg : ReboundCollisions.Config) :
    ∀ c ∈ (ReboundCollisions.init rand cfg).2, tame c := by
  have hpre : ∀ c ∈ [ECall.readConfig, ECall.setMode, ECall.createClock,
      ECall.createSpace, ECall.setGravity], tame c := by
    intro c hc
    fin_cases hc <;> trivial
  intro c hc
  simp only [ReboundCollisions.init,
    ReboundCollisions.create_and_add_a_new_circle] at hc
  exact tame_append hpre (tame_addPair (by decide)) c hc

theorem pizza_init_tame (fs : String → Bool) (rand : ℕ → ℕ) (fuel : ℕ)
    (dir_path : String) (cfg : PizzaRain.Config) :
    ∀ c ∈ (PizzaRain.init fs rand fuel dir_path cfg).2, tame c := by
  have hpre : ∀ c ∈ [ECall.readConfig, ECall.setMode, ECall.setCaption,
      ECall.createClock], tame c := by
    intro c hc
    fin_cases hc <;> trivial
  intro c hc
  dsimp only [PizzaRain.init] at hc
  split at hc
  case _ ps tr heq =>
    have htr : ∀ c ∈ tr, tame c := by
      intro c' hc'
      rw [pizza_buildPizzas_loadImage fs rand fuel dir_path cfg _ _ _ c'
        (by rw [heq]; exact hc')]
      trivial
    exact tame_append hpre htr c hc
  case _ e tr heq =>
    have htr : ∀ c ∈ tr, tame c := by
      intro c' hc'
      rw [pizza_buildPizzas_loadImage fs rand fuel dir_path cfg _ _ _ c'
        (by rw [heq]; exact hc')]
      trivial
    exact tame_append hpre htr c hc

theorem solar_initCalls_tame : ∀ c ∈ SolarSystem.initCalls, tame c := by
  intro c hc
  simp only [SolarSystem.initCalls] at hc
  fin_cases hc <;> trivial

theorem addsOnlyCircSeg_cons_step {tr : List ECall} (dt : ℚ)
    (h : addsOnlyCircSeg tr) : addsOnlyCircSeg (ECall.spaceStep dt :: tr) := by
  intro k hk
  rcases List.mem_cons.mp hk with h' | h'
  · exact absurd h' (by simp)
  · exact h k h'

theorem cf_run_logic_trace (phys : ℚ × ℚ → ℚ × ℚ) (rand : ℕ → ℕ)
    (st : ColorfulFlooding.State) :
    (ColorfulFlooding.run_logic phys rand st).2 =
      (ColorfulFlooding.stepPhase phys st).2 ++
        (ColorfulFlooding.spawnPhase rand (ColorfulFlooding.stepPhase phys st).1).2 ++
        (ColorfulFlooding.removeBottomPhase
          (ColorfulFlooding.spawnPhase rand
            (ColorfulFlooding.stepPhase phys st).1).1).2 ++
        (ColorfulFlooding.cullLoop
          (ColorfulFlooding.removeBottomPhase
            (ColorfulFlooding.spawnPhase rand
              (ColorfulFlooding.stepPhase phys st).1).1).1.config.screen_height
          0
          (ColorfulFlooding.removeBottomPhase
            (ColorfulFlooding.spawnPhase rand
              (ColorfulFlooding.stepPhase phys st).1).1).1.balls_list
          (ColorfulFlooding.removeBottomPhase
            (ColorfulFlooding.spawnPhase rand
              (ColorfulFlooding.stepPhase phys st).1).1).1.space).2 := by
  dsimp only [ColorfulFlooding.run_logic]
  split <;> rfl

theorem cf_run_logic_step_count (phys : ℚ × ℚ → ℚ × ℚ) (rand : ℕ → ℕ)
    (st : ColorfulFlooding.State) :
    stepCount (ColorfulFlooding.run_logic phys rand st).2 = 1 := by
  rw [cf_run_logic_trace, stepCount_append, stepCount_append, stepCount_append,
    stepCount_eq_zero_of_tame (cf_spawnPhase_tame rand _),
    stepCount_eq_zero_of_tame (cf_removeBottomPhase_tame _),
    stepCount_eq_zero_of_tame (cf_cullLoop_tame _ _ 0 _ _ (Nat.sub_le _ _))]
  rfl

theorem cf_run_logic_adds (phys : ℚ × ℚ → ℚ × ℚ) (rand : ℕ → ℕ)
    (st : ColorfulFlooding.State) :
    addsOnlyCircSeg (ColorfulFlooding.run_logic phys rand st).2 := by
  rw [cf_run_logic_trace]
  exact addsOnlyCircSeg_append
    (addsOnlyCircSeg_append
      (addsOnlyCircSeg_append (addsOnlyCircSeg_step (1 / 60))
        (addsOnlyCircSeg_of_tame (cf_spawnPhase_tame rand _)))
      (addsOnlyCircSeg_of_tame (cf_removeBottomPhase_tame _)))
    (addsOnlyCircSeg_of_tame (cf_cullLoop_tame _ _ 0 _ _ (Nat.sub_le _ _)))

theorem sand_run_logic_trace_tail (phys : ℚ × ℚ → ℚ × ℚ) (rand : ℕ → ℕ)
    (st : SandClock.State) :
    ∃ tr, (SandClock.run_logic phys rand st).2 = ECall.spaceStep (1 / 100) :: tr ∧
      ∀ c ∈ tr, tame c := by
  dsimp only [SandClock.run_logic]
  split <;>
  · split
    · split
      case _ st4 tr heq =>
        refine ⟨tr, rfl, ?_⟩
        intro c hc
        exact sand_init_tame rand _ c (by rw [heq]; exact hc)
      case _ e tr heq =>
        refine ⟨tr, rfl, ?_⟩
        intro c hc
        exact sand_init_tame rand _ c (by rw [heq]; exact hc)
    · exact ⟨[], rfl, by intro c hc; simp at hc⟩

theorem sand_run_logic_step_count (phys : ℚ × ℚ → ℚ × ℚ) (rand : ℕ → ℕ)
    (st : SandClock.State) :
    stepCount (SandClock.run_logic phys rand st).2 = 1 := by
  obtain ⟨tr, htr, htame⟩ := sand_run_logic_trace_tail phys rand st
  rw [htr]
  show stepCount ([ECall.spaceStep (1 / 100)] ++ tr) = 1
  rw [stepCount_append, stepCount_eq_zero_of_tame htame]
  rfl

theorem sand_run_logic_adds (phys : ℚ × ℚ → ℚ × ℚ) (rand : ℕ → ℕ)
    (st : SandClock.State) :
    addsOnlyCircSeg (SandClock.run_logic phys rand st).2 := by
  obtain ⟨tr, htr, htame⟩ := sand_run_logic_trace_tail phys rand st
  rw [htr]
  exact addsOnlyCircSeg_cons_step _ (addsOnlyCircSeg_of_tame htame)

theorem wb_run_logic_trace (physWreck : ℚ × ℚ → ℚ × ℚ → ℚ × ℚ)
    (physBall : ℚ × ℚ → ℚ × ℚ) (rand : ℕ → ℕ) (st : WreckingBall.State) :
    ∃ (i : ℕ) (balls : List WreckingBall.SmallBall) (sp : List WreckingBall.Obj)
      (sw sh : ℤ),
      (WreckingBall.run_logic physWreck physBall rand st).2 =
        [ECall.spaceStep (1 / 60)] ++ addPair ShapeKind.circle ++
          (WreckingBall.cullLoop sw sh i balls sp).2 := by
  dsimp only [WreckingBall.run_logic]
  split <;> exact ⟨0, _, _, _, _, rfl⟩

theorem wb_run_logic_step_count (physWreck : ℚ × ℚ → ℚ × ℚ → ℚ × ℚ)
    (physBall : ℚ × ℚ → ℚ × ℚ) (rand : ℕ → ℕ) (st : WreckingBall.State) :
    stepCount (WreckingBall.run_logic physWreck physBall rand st).2 = 1 := by
  obtain ⟨i, balls, sp, sw, sh, htr⟩ := wb_run_logic_trace physWreck physBall rand st
  rw [htr, stepCount_append, stepCount_append,
    stepCount_eq_zero_of_tame (tame_addPair (by decide)),
    stepCount_eq_zero_of_tame (wb_cullLoop_tame _ _ _ i _ _ (Nat.sub_le _ _))]
  rfl

theorem wb_run_logic_adds (physWreck : ℚ × ℚ → ℚ × ℚ → ℚ × ℚ)
    (physBall : ℚ × ℚ → ℚ × ℚ) (rand : ℕ → ℕ) (st : WreckingBall.State) :
    addsOnlyCircSeg (WreckingBall.run_logic physWreck physBall rand st).2 := by
  obtain ⟨i, balls, sp, sw, sh, htr⟩ := wb_run_logic_trace physWreck physBall rand st
  rw [htr]
  exact addsOnlyCircSeg_append
    (addsOnlyCircSeg_append (addsOnlyCircSeg_step (1 / 60))
      (addsOnlyCircSeg_of_tame (tame_addPair (by decide))))
    (addsOnlyCircSeg_of_tame (wb_cullLoop_tame _ _ _ i _ _ (Nat.sub_le _ _)))

theorem shoot_run_logic_trace_tail (phys : ℚ × ℚ → ℚ × ℚ) (rand : ℕ → ℕ)
    (mp : ℤ × ℤ) (st : ShootingStar.State) :
    ∃ tr, (ShootingStar.run_logic phys rand mp st).2 =
        [ECall.spaceStep (1 / 60)] ++ tr ∧ ∀ c ∈ tr, tame c := by
  dsimp only [ShootingStar.run_logic]
  split
  · exact ⟨_, rfl, shoot_createSparks_tame rand _ mp _ _ _⟩
  · exact ⟨[], rfl, by intro c hc; simp at hc⟩

theorem shoot_run_logic_step_count (phys : ℚ × ℚ → ℚ × ℚ) (rand : ℕ → ℕ)
    (mp : ℤ × ℤ) (st : ShootingStar.State) :
    stepCount (ShootingStar.run_logic phys rand mp st).2 = 1 := by
  obtain ⟨tr, htr, htame⟩ := shoot_run_logic_trace_tail phys rand mp st
  rw [htr, stepCount_append, stepCount_eq_zero_of_tame htame]
  rfl

theorem shoot_run_logic_adds (phys : ℚ × ℚ → ℚ × ℚ) (rand : ℕ → ℕ)
    (mp : ℤ × ℤ) (st : ShootingStar.State) :
    addsOnlyCircSeg (ShootingStar.run_logic phys rand mp st).2 := by
  obtain ⟨tr, htr, htame⟩ := shoot_run_logic_trace_tail phys rand mp st
  rw [htr]
  exact addsOnlyCircSeg_append (addsOnlyCircSeg_step (1 / 60))
    (addsOnlyCircSeg_of_tame htame)

theorem rebound_run_logic_trace_mid (phys : (ℚ × ℚ) × (ℚ × ℚ) → (ℚ × ℚ) × (ℚ × ℚ))
    (rand : ℕ → ℕ) (st : ReboundCollisions.State) :
    ∃ tr, (ReboundCollisions.run_logic phys rand st).2 =
        [ECall.spaceStep (1 / 60)] ++ tr ++ [ECall.setCaption] ∧ ∀ c ∈ tr, tame c := by
  dsimp only [ReboundCollisions.run_logic]
  split
  · exact ⟨addPair ShapeKind.circle, rfl, tame_addPair (by decide)⟩
  · exact ⟨[], rfl, by intro c hc; simp at hc⟩

theorem rebound_run_logic_step_count
    (phys : (ℚ × ℚ) × (ℚ × ℚ) → (ℚ × ℚ) × (ℚ × ℚ)) (rand : ℕ → ℕ)
    (st : ReboundCollisions.State) :
    stepCount (ReboundCollisions.run_logic phys rand st).2 = 1 := by
  obtain ⟨tr, htr, htame⟩ := rebound_run_logic_trace_mid phys rand st
  rw [htr, stepCount_append, stepCount_append, stepCount_eq_zero_of_tame htame]
  rfl

theorem rebound_run_logic_adds
    (phys : (ℚ × ℚ) × (ℚ × ℚ) → (ℚ × ℚ) × (ℚ × ℚ)) (rand : ℕ → ℕ)
    (st : ReboundCollisions.State) :
    addsOnlyCircSeg (ReboundCollisions.run_logic phys rand st).2 := by
  obtain ⟨tr, htr, htame⟩ := rebound_run_logic_trace_mid phys rand st
  rw [htr]
  refine addsOnlyCircSeg_append
    (addsOnlyCircSeg_append (addsOnlyCircSeg_step (1 / 60))
      (addsOnlyCircSeg_of_tame htame)) ?_
  intro k hk
  simp at hk

theorem pizza_init_no_space (fs : String → Bool) (rand : ℕ → ℕ) (fuel : ℕ)
    (dir_path : String) (cfg : PizzaRain.Config) :
    ECall.setMode ∈ (PizzaRain.init fs rand fuel dir_path cfg).2 ∧
      ECall.createSpace ∉ (PizzaRain.init fs rand fuel dir_path cfg).2 := by
  have hbuild := pizza_buildPizzas_loadImage fs rand fuel dir_path cfg
    cfg.number_of_pizzas 0 []
  constructor
  · dsimp only [PizzaRain.init]
    split <;> simp
  · intro hmem
    dsimp only [PizzaRain.init] at hmem
    split at hmem
    case _ ps tr heq =>
      rcases List.mem_append.mp hmem with h | h
      · simp at h
      · exact absurd (hbuild _ (by rw [heq]; exact h)) (by simp)
    case _ e tr heq =>
      rcases List.mem_append.mp hmem with h | h
      · simp at h
      · exact absurd (hbuild _ (by rw [heq]; exact h)) (by simp)

/-- C2 (amended): every simulation's constructor creates a display
surface, but only the five pymunk-based simulations (`ColorfulFlooding`,
`SandClock`, `WreckingBall`, `ShootingStar`, `ReboundCollisions`) also
create a physics space; `PizzaRain` and `SolarSystem` create none. -/
theorem constructors_display_surface_and_physics_space :
    (∀ cfg, ECall.setMode ∈ (ColorfulFlooding.init cfg).2 ∧
      ECall.createSpace ∈ (ColorfulFlooding.init cfg).2) ∧
    (∀ (rand : ℕ → ℕ) cfg, ECall.setMode ∈ (SandClock.init rand cfg).2 ∧
      ECall.createSpace ∈ (SandClock.init rand cfg).2) ∧
    (∀ (rand : ℕ → ℕ) cfg, ECall.setMode ∈ (WreckingBall.init rand cfg).2 ∧
      ECall.createSpace ∈ (WreckingBall.init rand cfg).2) ∧
    (∀ cfg, ECall.setMode ∈ (ShootingStar.init cfg).2 ∧
      ECall.createSpace ∈ (ShootingStar.init cfg).2) ∧
    (∀ (rand : ℕ → ℕ) cfg, ECall.setMode ∈ (ReboundCollisions.init rand cfg).2 ∧
      ECall.createSpace ∈ (ReboundCollisions.init rand cfg).2) ∧
    (∀ (fs : String → Bool) (rand : ℕ → ℕ) (fuel : ℕ) (dir_path : String) cfg,
      ECall.setMode ∈ (PizzaRain.init fs rand fuel dir_path cfg).2 ∧
      ECall.createSpace ∉ (PizzaRain.init fs rand fuel dir_path cfg).2) ∧
    (ECall.setMode ∈ SolarSystem.initCalls ∧
      ECall.createSpace ∉ SolarSystem.initCalls) := by
  refine ⟨?_, ?_, ?_, ?_, ?_, ?_, ?_⟩
  · intro cfg
    constructor <;> simp [ColorfulFlooding.init, addPair]
  · intro rand cfg
    constructor <;>
    · dsimp only [SandClock.init]
      split <;> simp
  · intro rand cfg
    constructor <;> simp [WreckingBall.init, addPair]
  · intro cfg
    constructor <;> simp [ShootingStar.init]
  · intro rand cfg
    constructor <;> simp [ReboundCollisions.init,
      ReboundCollisions.create_and_add_a_new_circle, addPair]
  · exact pizza_init_no_space
  · exact ⟨by decide, by decide⟩

/-- Counterexample to C2 as stated: `SolarSystem.__init__` makes no
`pymunk.Space()` call at all — the module does not create a physics
world. -/
theorem solar_system_init_creates_no_space :
    ECall.createSpace ∉ SolarSystem.initCalls := by
  decide

/-- C3 (amended): each `run_logic` of the five pymunk-based simulations
calls `space.step` exactly once per invocation; `PizzaRain.run_logic` and
`SolarSystem.run_logic` never call it (those modules have no physics
space). -/
theorem run_logic_space_step_counts :
    (∀ (phys : ℚ × ℚ → ℚ × ℚ) (rand : ℕ → ℕ) st,
      stepCount (ColorfulFlooding.run_logic phys rand st).2 = 1) ∧
    (∀ (phys : ℚ × ℚ → ℚ × ℚ) (rand : ℕ → ℕ) st,
      stepCount (SandClock.run_logic phys rand st).2 = 1) ∧
    (∀ (physWreck : ℚ × ℚ → ℚ × ℚ → ℚ × ℚ) (physBall : ℚ × ℚ → ℚ × ℚ)
      (rand : ℕ → ℕ) st,
      stepCount (WreckingBall.run_logic physWreck physBall rand st).2 = 1) ∧
    (∀ (phys : ℚ × ℚ → ℚ × ℚ) (rand : ℕ → ℕ) (mp : ℤ × ℤ) st,
      stepCount (ShootingStar.run_logic phys rand mp st).2 = 1) ∧
    (∀ (phys : (ℚ × ℚ) × (ℚ × ℚ) → (ℚ × ℚ) × (ℚ × ℚ)) (rand : ℕ → ℕ) st,
      stepCount (ReboundCollisions.run_logic phys rand st).2 = 1) ∧
    (∀ st, stepCount (PizzaRain.run_logic st).2 = 0) ∧
    (∀ st, stepCount (SolarSystem.run_logic st).2 = 0) :=
  ⟨cf_run_logic_step_count, sand_run_logic_step_count, wb_run_logic_step_count,
    shoot_run_logic_step_count, rebound_run_logic_step_count,
    fun _ => rfl, fun _ => rfl⟩

/-- Counterexample to C3 as stated: a concrete `PizzaRain.run_logic`
invocation makes zero `space.step` calls, not exactly one. -/
theorem pizza_rain_run_logic_steps_no_space :
    stepCount (PizzaRain.run_logic
      { pizza_list := [], is_running := true
        config := { screen_width := 700, screen_height := 700
                    number_of_pizzas := 10, vertical_speed := 2
                    rotation_every := 30, diameter := 70
                    vertical_speed_incr := 1, rotation_every_incr := 5
                    pizza_images_files := ["pizza_1.png"] } }).2 ≠ 1 := by
  decide

/-- C5: every shape any simulation ever adds to a pymunk space — in a
constructor or in any `run_logic` invocation from any state — is a circle
or a segment. -/
theorem every_added_shape_is_circle_or_segment :
    (∀ cfg, addsOnlyCircSeg (ColorfulFlooding.init cfg).2) ∧
    (∀ (phys : ℚ × ℚ → ℚ × ℚ) (rand : ℕ → ℕ) st,
      addsOnlyCircSeg (ColorfulFlooding.run_logic phys rand st).2) ∧
    (∀ (rand : ℕ → ℕ) cfg, addsOnlyCircSeg (SandClock.init rand cfg).2) ∧
    (∀ (phys : ℚ × ℚ → ℚ × ℚ) (rand : ℕ → ℕ) st,
      addsOnlyCircSeg (SandClock.run_logic phys rand st).2) ∧
    (∀ (rand : ℕ → ℕ) cfg, addsOnlyCircSeg (WreckingBall.init rand cfg).2) ∧
    (∀ (physWreck : ℚ × ℚ → ℚ × ℚ → ℚ × ℚ) (physBall : ℚ × ℚ → ℚ × ℚ)
      (rand : ℕ → ℕ) st,
      addsOnlyCircSeg (WreckingBall.run_logic physWreck physBall rand st).2) ∧
    (∀ cfg, addsOnlyCircSeg (ShootingStar.init cfg).2) ∧
    (∀ (phys : ℚ × ℚ → ℚ × ℚ) (rand : ℕ → ℕ) (mp : ℤ × ℤ) st,
      addsOnlyCircSeg (ShootingStar.run_logic phys rand mp st).2) ∧
    (∀ (rand : ℕ → ℕ) cfg, addsOnlyCircSeg (ReboundCollisions.init rand cfg).2) ∧
    (∀ (phys : (ℚ × ℚ) × (ℚ × ℚ) → (ℚ × ℚ) × (ℚ × ℚ)) (rand : ℕ → ℕ) st,
      addsOnlyCircSeg (ReboundCollisions.run_logic phys rand st).2) ∧
    (∀ (fs : String → Bool) (rand : ℕ → ℕ) (fuel : ℕ) (dir_path : String) cfg,
      addsOnlyCircSeg (PizzaRain.init fs rand fuel dir_path cfg).2) ∧
    (∀ st, addsOnlyCircSeg (PizzaRain.run_logic st).2) ∧
    addsOnlyCircSeg SolarSystem.initCalls ∧
    (∀ st, addsOnlyCircSeg (SolarSystem.run_logic st).2) := by
  refine ⟨?_, cf_run_logic_adds, ?_, sand_run_logic_adds, ?_, wb_run_logic_adds,
    ?_, shoot_run_logic_adds, ?_, rebound_run_logic_adds, ?_, ?_, ?_, ?_⟩
  · exact fun cfg => addsOnlyCircSeg_of_tame (cf_init_tame cfg)
  · exact fun rand cfg => addsOnlyCircSeg_of_tame (sand_init_tame rand cfg)
  · exact fun rand cfg => addsOnlyCircSeg_of_tame (wb_init_tame rand cfg)
  · exact fun cfg => addsOnlyCircSeg_of_tame (shoot_init_tame cfg)
  · exact fun rand cfg => addsOnlyCircSeg_of_tame (rebound_init_tame rand cfg)
  · exact fun fs rand fuel dir_path cfg =>
      addsOnlyCircSeg_of_tame (pizza_init_tame fs rand fuel dir_path cfg)
  · intro st k hk
    simp [PizzaRain.run_logic] at hk
  · exact addsOnlyCircSeg_of_tame solar_initCalls_tame
  · intro st k hk
    simp [SolarSystem.run_logic] at hk

theorem mem_of_mem_eraseIdx {α : Type} {l : List α} {i : ℕ} {b : α}
    (h : b ∈ l.eraseIdx i) : b ∈ l :=
  (List.eraseIdx_sublist l i).subset h

theorem map_ne_get_of_mem_eraseIdx {α β : Type} {f : α → β} {l : List α}
    (hnd : (l.map f).Nodup) {i : ℕ} (hi : i < l.length) {b : α}
    (hb : b ∈ l.eraseIdx i) : f b ≠ f (l.get ⟨i, hi⟩) := by
  induction l generalizing i with
  | nil => simp at hi
  | cons a t ih =>
    rw [List.map_cons, List.nodup_cons] at hnd
    cases i with
    | zero =>
      intro hEq
      exact hnd.1 (hEq ▸ List.mem_map_of_mem f hb)
    | succ i =>
      rcases List.mem_cons.mp hb with rfl | hb'
      · intro hEq
        have : i < t.length := by simpa using hi
        exact hnd.1 (hEq ▸ List.mem_map_of_mem f (t.get_mem i this))
      · exact ih hnd.2 (by simpa using hi) hb'

theorem spaceRemoveSeq_pair_absent {σ : Type} [DecidableEq σ] {sp : List σ}
    {x y : σ} (hx : x ∉ sp) :
    spaceRemoveSeq sp [x, y] = (sp, some PyErr.assertionError) := by
  simp [spaceRemoveSeq, hx]

theorem spaceRemoveSeq_pair_present {σ : Type} [DecidableEq σ] {sp : List σ}
    {x y : σ} (hx : x ∈ sp) (hy : y ∈ sp.erase x) :
    spaceRemoveSeq sp [x, y] = ((sp.erase x).erase y, none) := by
  simp [spaceRemoveSeq, hx, hy]

theorem cf_makeBalls_idx_bounds (rand : ℕ → ℕ) (cfg : ColorfulFlooding.Config) :
    ∀ (srcs : List (ℤ × ℤ)) (k nid : ℕ),
      ∀ b ∈ ColorfulFlooding.makeBalls rand cfg srcs k nid,
        nid ≤ b.idx ∧ b.idx < nid + srcs.length := by
  intro srcs
  induction srcs with
  | nil =>
    intro k nid b hb
    simp [ColorfulFlooding.makeBalls] at hb
  | cons s rest ih =>
    intro k nid b hb
    rcases s with ⟨sx, sy⟩
    rcases List.mem_cons.mp hb with rfl | hb'
    · simp
    · have := ih (k + 4) (nid + 1) b hb'
      constructor
      · omega
      · simp only [List.length_cons]
        omega

theorem cf_makeBalls_idx_nodup (rand : ℕ → ℕ) (cfg : ColorfulFlooding.Config) :
    ∀ (srcs : List (ℤ × ℤ)) (k nid : ℕ),
      ((ColorfulFlooding.makeBalls rand cfg srcs k nid).map
        ColorfulFlooding.Ball.idx).Nodup := by
  intro srcs
  induction srcs with
  | nil =>
    intro k nid
    simp [ColorfulFlooding.makeBalls]
  | cons s rest ih =>
    intro k nid
    rcases s with ⟨sx, sy⟩
    rw [ColorfulFlooding.makeBalls, List.map_cons, List.nodup_cons]
    refine ⟨?_, ih (k + 4) (nid + 1)⟩
    intro hmem
    rcases List.mem_map.mp hmem with ⟨b, hb, hidx⟩
    have := (cf_makeBalls_idx_bounds rand cfg rest (k + 4) (nid + 1) b hb).1
    simp only at hidx
    omega

theorem cf_ballObjs_mem (bs : List ColorfulFlooding.Ball) :
    ∀ b ∈ bs, ColorfulFlooding.Obj.ballBody b.idx ∈ ColorfulFlooding.ballObjs bs ∧
      ColorfulFlooding.Obj.ballShape b.idx ∈ ColorfulFlooding.ballObjs bs := by
  intro b hb
  constructor <;>
  · apply List.mem_flatMap.mpr
    exact ⟨b, hb, by simp⟩

theorem cf_ballObjs_elems (bs : List ColorfulFlooding.Ball) :
    ∀ o ∈ ColorfulFlooding.ballObjs bs,
      ∃ b ∈ bs, o = ColorfulFlooding.Obj.ballBody b.idx ∨
        o = ColorfulFlooding.Obj.ballShape b.idx := by
  intro o ho
  rcases List.mem_flatMap.mp ho with ⟨b, hb, hob⟩
  refine ⟨b, hb, ?_⟩
  rcases List.mem_cons.mp hob with rfl | hob'
  · exact Or.inl rfl
  · rcases List.mem_cons.mp hob' with rfl | hob''
    · exact Or.inr rfl
    · simp at hob''

theorem cf_stepPhase_fields (phys : ℚ × ℚ → ℚ × ℚ) (st : ColorfulFlooding.State) :
    (ColorfulFlooding.stepPhase phys st).1.space = st.space ∧
      (ColorfulFlooding.stepPhase phys st).1.remove_screen_bottom =
        st.remove_screen_bottom ∧
      (ColorfulFlooding.stepPhase phys st).1.nextId = st.nextId ∧
      (ColorfulFlooding.stepPhase phys st).1.balls_list.map
        ColorfulFlooding.Ball.idx = st.balls_list.map ColorfulFlooding.Ball.idx := by
  refine ⟨rfl, rfl, rfl, ?_⟩
  dsimp only [ColorfulFlooding.stepPhase]
  rw [List.map_map]
  rfl

theorem cf_stepPhase_idxProp (phys : ℚ × ℚ → ℚ × ℚ) (st : ColorfulFlooding.State)
    (P : ℕ → Prop) (h : ∀ b ∈ st.balls_list, P b.idx) :
    ∀ b' ∈ (ColorfulFlooding.stepPhase phys st).1.balls_list, P b'.idx := by
  intro b' hb'
  dsimp only [ColorfulFlooding.stepPhase] at hb'
  rcases List.mem_map.mp hb' with ⟨b, hb, rfl⟩
  exact h b hb

theorem cf_spawnPhase_chars (rand : ℕ → ℕ) (st : ColorfulFlooding.State) :
    ∃ new : List ColorfulFlooding.Ball,
      (ColorfulFlooding.spawnPhase rand st).1.balls_list = st.balls_list ++ new ∧
      (ColorfulFlooding.spawnPhase rand st).1.space =
        st.space ++ ColorfulFlooding.ballObjs new ∧
      (ColorfulFlooding.spawnPhase rand st).1.remove_screen_bottom =
        st.remove_screen_bottom ∧
      (∀ b ∈ new, st.nextId ≤ b.idx) ∧
      ((new.map ColorfulFlooding.Ball.idx).Nodup) := by
  dsimp only [ColorfulFlooding.spawnPhase]
  split
  · refine ⟨ColorfulFlooding.makeBalls rand st.config st.sources_positions 0 st.nextId,
      rfl, rfl, rfl, ?_, cf_makeBalls_idx_nodup rand st.config _ 0 st.nextId⟩
    intro b hb
    exact (cf_makeBalls_idx_bounds rand st.config _ 0 st.nextId b hb).1
  · exact ⟨[], by simp, by simp [ColorfulFlooding.ballObjs], rfl,
      by intro b hb; simp at hb, by simp⟩

theorem cf_cullLoop_ok (sh : ℤ) :
    ∀ (k i : ℕ) (balls : List ColorfulFlooding.Ball)
      (sp : List ColorfulFlooding.Obj),
      balls.length - i ≤ k →
      ((balls.map ColorfulFlooding.Ball.idx).Nodup) →
      (∀ b ∈ balls, ColorfulFlooding.Obj.ballBody b.idx ∈ sp ∧
        ColorfulFlooding.Obj.ballShape b.idx ∈ sp) →
      ∃ res, (ColorfulFlooding.cullLoop sh i balls sp).1 = Except.ok res := by
  intro k
  induction k with
  | zero =>
    intro i balls sp hk hnd hmem
    unfold ColorfulFlooding.cullLoop
    rw [dif_neg (by omega)]
    exact ⟨_, rfl⟩
  | succ k ih =>
    intro i balls sp hk hnd hmem
    unfold ColorfulFlooding.cullLoop
    by_cases h : i < balls.length
    · rw [dif_pos h]
      have hbmem : balls.get ⟨i, h⟩ ∈ balls := balls.get_mem i h
      by_cases hout : (balls.get ⟨i, h⟩).is_out_of_the_screen sh
      · rw [if_pos hout]
        have hbody := (hmem _ hbmem).1
        have hshape : ColorfulFlooding.Obj.ballShape (balls.get ⟨i, h⟩).idx ∈
            sp.erase (ColorfulFlooding.Obj.ballBody (balls.get ⟨i, h⟩).idx) :=
          (List.mem_erase_of_ne (by simp)).mpr (hmem _ hbmem).2
        rw [spaceRemoveSeq_pair_present hbody hshape]
        have hnd' : ((balls.eraseIdx i).map ColorfulFlooding.Ball.idx).Nodup :=
          List.Nodup.sublist ((balls.eraseIdx_sublist i).map _) hnd
        have hmem' : ∀ b' ∈ balls.eraseIdx i,
            ColorfulFlooding.Obj.ballBody b'.idx ∈
              ((sp.erase (ColorfulFlooding.Obj.ballBody (balls.get ⟨i, h⟩).idx)).erase
                (ColorfulFlooding.Obj.ballShape (balls.get ⟨i, h⟩).idx)) ∧
            ColorfulFlooding.Obj.ballShape b'.idx ∈
              ((sp.erase (ColorfulFlooding.Obj.ballBody (balls.get ⟨i, h⟩).idx)).erase
                (ColorfulFlooding.Obj.ballShape (balls.get ⟨i, h⟩).idx)) := by
          intro b' hb'
          have hb'mem : b' ∈ balls := mem_of_mem_eraseIdx hb'
          have hne : b'.idx ≠ (balls.get ⟨i, h⟩).idx :=
            map_ne_get_of_mem_eraseIdx hnd h hb'
          have hne' : ¬b'.idx = balls[i].idx := by simpa using hne
          constructor
          · exact (List.mem_erase_of_ne (by simp)).mpr
              ((List.mem_erase_of_ne (by simp [hne'])).mpr (hmem _ hb'mem).1)
          · exact (List.mem_erase_of_ne (by simp [hne'])).mpr
              ((List.mem_erase_of_ne (by simp)).mpr (hmem _ hb'mem).2)
        obtain ⟨res, hres⟩ := ih (i + 1) (balls.eraseIdx i) _
          (by simp only [List.length_eraseIdx, h, if_pos]; omega) hnd' hmem'
        exact ⟨res, hres⟩
      · rw [if_neg hout]
        exact ih (i + 1) balls sp (by omega) hnd hmem
    · rw [dif_neg h]
      exact ⟨_, rfl⟩

/-- C1: once the bottom boundary segment has been removed from the space,
any `run_logic` call on a state with `_remove_screen_bottom` still set (and
the usual object-bookkeeping invariants: each listed ball's body and shape
are in the space, ball indices are distinct and below the id counter)
attempts the removal again: `space.remove` raises `AssertionError`, the
`try`/`except` swallows it leaving the state of the teardown phase exactly
unchanged, and `run_logic` completes normally. -/
theorem colorful_flooding_second_teardown_is_harmless
    (phys : ℚ × ℚ → ℚ × ℚ) (rand : ℕ → ℕ) (st : ColorfulFlooding.State)
    (hflag : st.remove_screen_bottom = true)
    (hb1 : ColorfulFlooding.Obj.bottomBody ∉ st.space)
    (hmem : ∀ b ∈ st.balls_list,
      ColorfulFlooding.Obj.ballBody b.idx ∈ st.space ∧
        ColorfulFlooding.Obj.ballShape b.idx ∈ st.space)
    (hnd : (st.balls_list.map ColorfulFlooding.Ball.idx).Nodup)
    (hfresh : ∀ b ∈ st.balls_list, b.idx < st.nextId) :
    (∃ st', (ColorfulFlooding.run_logic phys rand st).1 = Except.ok st') ∧
      spaceRemoveSeq
          ((ColorfulFlooding.spawnPhase rand
            (ColorfulFlooding.stepPhase phys st).1).1).space
          [ColorfulFlooding.Obj.bottomBody, ColorfulFlooding.Obj.bottomShape] =
        (((ColorfulFlooding.spawnPhase rand
            (ColorfulFlooding.stepPhase phys st).1).1).space,
          some PyErr.assertionError) ∧
      ColorfulFlooding.removeBottomPhase
          ((ColorfulFlooding.spawnPhase rand
            (ColorfulFlooding.stepPhase phys st).1).1) =
        ((ColorfulFlooding.spawnPhase rand
            (ColorfulFlooding.stepPhase phys st).1).1, []) := by
  obtain ⟨hsp1, hflag1, hnid1, hidx1⟩ := cf_stepPhase_fields phys st
  have hmem1 : ∀ b ∈ (ColorfulFlooding.stepPhase phys st).1.balls_list,
      ColorfulFlooding.Obj.ballBody b.idx ∈
          (ColorfulFlooding.stepPhase phys st).1.space ∧
        ColorfulFlooding.Obj.ballShape b.idx ∈
          (ColorfulFlooding.stepPhase phys st).1.space := by
    rw [hsp1]
    exact cf_stepPhase_idxProp phys st
      (fun n => ColorfulFlooding.Obj.ballBody n ∈ st.space ∧
        ColorfulFlooding.Obj.ballShape n ∈ st.space) hmem
  have hfresh1 : ∀ b ∈ (ColorfulFlooding.stepPhase phys st).1.balls_list,
      b.idx < (ColorfulFlooding.stepPhase phys st).1.nextId := by
    rw [hnid1]
    exact cf_stepPhase_idxProp phys st (fun n => n < st.nextId) hfresh
  obtain ⟨new, hballs2, hsp2, hflag2, hlo2, hnd2⟩ :=
    cf_spawnPhase_chars rand (ColorfulFlooding.stepPhase phys st).1
  have hflag2' : (ColorfulFlooding.spawnPhase rand
      (ColorfulFlooding.stepPhase phys st).1).1.remove_screen_bottom = true := by
    rw [hflag2, hflag1, hflag]
  have hb2 : ColorfulFlooding.Obj.bottomBody ∉
      (ColorfulFlooding.spawnPhase rand
        (ColorfulFlooding.stepPhase phys st).1).1.space := by
    rw [hsp2, hsp1]
    intro hcon
    rcases List.mem_append.mp hcon with hcon' | hcon'
    · exact hb1 hcon'
    · rcases cf_ballObjs_elems new _ hcon' with ⟨b, _, hbo | hbo⟩ <;> simp at hbo
  have hnd2' : ((ColorfulFlooding.spawnPhase rand
      (ColorfulFlooding.stepPhase phys st).1).1.balls_list.map
        ColorfulFlooding.Ball.idx).Nodup := by
    rw [hballs2, List.map_append]
    rw [List.nodup_append]
    refine ⟨hidx1 ▸ hnd, hnd2, ?_⟩
    intro a ha hb
    rcases List.mem_map.mp ha with ⟨x, hx, rfl⟩
    rcases List.mem_map.mp hb with ⟨y, hy, hxy⟩
    have h1 : x.idx < (ColorfulFlooding.stepPhase phys st).1.nextId := hfresh1 x hx
    have h2 := hlo2 y hy
    omega
  have hmem2 : ∀ b ∈ (ColorfulFlooding.spawnPhase rand
      (ColorfulFlooding.stepPhase phys st).1).1.balls_list,
      ColorfulFlooding.Obj.ballBody b.idx ∈
          (ColorfulFlooding.spawnPhase rand
            (ColorfulFlooding.stepPhase phys st).1).1.space ∧
        ColorfulFlooding.Obj.ballShape b.idx ∈
          (ColorfulFlooding.spawnPhase rand
            (ColorfulFlooding.stepPhase phys st).1).1.space := by
    rw [hballs2, hsp2]
    intro b hb
    rcases List.mem_append.mp hb with hb' | hb'
    · exact ⟨List.mem_append_left _ (hmem1 b hb').1,
        List.mem_append_left _ (hmem1 b hb').2⟩
    · exact ⟨List.mem_append_right _ (cf_ballObjs_mem new b hb').1,
        List.mem_append_right _ (cf_ballObjs_mem new b hb').2⟩
  have hid3 := cf_removeBottomPhase_id _ hflag2' hb2
  refine ⟨?_, spaceRemoveSeq_pair_absent hb2, hid3⟩
  obtain ⟨res, hres⟩ := cf_cullLoop_ok
    ((ColorfulFlooding.removeBottomPhase
      ((ColorfulFlooding.spawnPhase rand
        (ColorfulFlooding.stepPhase phys st).1).1)).1.config.screen_height)
    ((ColorfulFlooding.removeBottomPhase
      ((ColorfulFlooding.spawnPhase rand
        (ColorfulFlooding.stepPhase phys st).1).1)).1.balls_list.length) 0
    ((ColorfulFlooding.removeBottomPhase
      ((ColorfulFlooding.spawnPhase rand
        (ColorfulFlooding.stepPhase phys st).1).1)).1.balls_list)
    ((ColorfulFlooding.removeBottomPhase
      ((ColorfulFlooding.spawnPhase rand
        (ColorfulFlooding.stepPhase phys st).1).1)).1.space)
    (Nat.sub_le _ _) (by rw [hid3]; exact hnd2') (by rw [hid3]; exact hmem2)
  refine ⟨{ (ColorfulFlooding.removeBottomPhase
      ((ColorfulFlooding.spawnPhase rand
        (ColorfulFlooding.stepPhase phys st).1).1)).1 with
      balls_list := res.1, space := res.2 }, ?_⟩
  dsimp only [ColorfulFlooding.run_logic]
  rw [hres]



/-- Witness for C1: a concrete post-teardown state (bottom segment gone,
flag still set, one ball still alive in the space): `run_logic` completes
normally, the renewed removal attempt raises `AssertionError`, and the
teardown phase leaves the state unchanged. -/
theorem colorful_flooding_second_teardown_is_harmless_witness :
    (∃ st', (ColorfulFlooding.run_logic (fun p => p) (fun _ => 0)
      { space := [ColorfulFlooding.Obj.upperBody, ColorfulFlooding.Obj.upperShape, ColorfulFlooding.Obj.leftBody, ColorfulFlooding.Obj.leftShape, ColorfulFlooding.Obj.rightBody, ColorfulFlooding.Obj.rightShape, ColorfulFlooding.Obj.ballBody 0, ColorfulFlooding.Obj.ballShape 0], sources_positions := [(233, 140), (466, 140)], balls_list := [{ idx := 0, color := [1, 2, 3], mass := 1, radius := 10, elasticity := 0, friction := 1, pos := (100, 100) }], counter := 0, remove_screen_bottom := true, nextId := 1, config := { screen_width := 700, screen_height := 700, gravity := 900, n_sources := 2, create_balls_every := 5, mass := 1, radius := 10, elasticity := 0, friction := 1 } }).1 = Except.ok st') ∧
      spaceRemoveSeq
          ((ColorfulFlooding.spawnPhase (fun _ => 0)
            (ColorfulFlooding.stepPhase (fun p => p)
              { space := [ColorfulFlooding.Obj.upperBody, ColorfulFlooding.Obj.upperShape, ColorfulFlooding.Obj.leftBody, ColorfulFlooding.Obj.leftShape, ColorfulFlooding.Obj.rightBody, ColorfulFlooding.Obj.rightShape, ColorfulFlooding.Obj.ballBody 0, ColorfulFlooding.Obj.ballShape 0], sources_positions := [(233, 140), (466, 140)], balls_list := [{ idx := 0, color := [1, 2, 3], mass := 1, radius := 10, elasticity := 0, friction := 1, pos := (100, 100) }], counter := 0, remove_screen_bottom := true, nextId := 1, config := { screen_width := 700, screen_height := 700, gravity := 900, n_sources := 2, create_balls_every := 5, mass := 1, radius := 10, elasticity := 0, friction := 1 } }).1).1).space
          [ColorfulFlooding.Obj.bottomBody, ColorfulFlooding.Obj.bottomShape] =
        (((ColorfulFlooding.spawnPhase (fun _ => 0)
            (ColorfulFlooding.stepPhase (fun p => p)
              { space := [ColorfulFlooding.Obj.upperBody, ColorfulFlooding.Obj.upperShape, ColorfulFlooding.Obj.leftBody, ColorfulFlooding.Obj.leftShape, ColorfulFlooding.Obj.rightBody, ColorfulFlooding.Obj.rightShape, ColorfulFlooding.Obj.ballBody 0, ColorfulFlooding.Obj.ballShape 0], sources_positions := [(233, 140), (466, 140)], balls_list := [{ idx := 0, color := [1, 2, 3], mass := 1, radius := 10, elasticity := 0, friction := 1, pos := (100, 100) }], counter := 0, remove_screen_bottom := true, nextId := 1, config := { screen_width := 700, screen_height := 700, gravity := 900, n_sources := 2, create_balls_every := 5, mass := 1, radius := 10, elasticity := 0, friction := 1 } }).1).1).space,
          some PyErr.assertionError) ∧
      ColorfulFlooding.removeBottomPhase
          ((ColorfulFlooding.spawnPhase (fun _ => 0)
            (ColorfulFlooding.stepPhase (fun p => p)
              { space := [ColorfulFlooding.Obj.upperBody, ColorfulFlooding.Obj.upperShape, ColorfulFlooding.Obj.leftBody, ColorfulFlooding.Obj.leftShape, ColorfulFlooding.Obj.rightBody, ColorfulFlooding.Obj.rightShape, ColorfulFlooding.Obj.ballBody 0, ColorfulFlooding.Obj.ballShape 0], sources_positions := [(233, 140), (466, 140)], balls_list := [{ idx := 0, color := [1, 2, 3], mass := 1, radius := 10, elasticity := 0, friction := 1, pos := (100, 100) }], counter := 0, remove_screen_bottom := true, nextId := 1, config := { screen_width := 700, screen_height := 700, gravity := 900, n_sources := 2, create_balls_every := 5, mass := 1, radius := 10, elasticity := 0, friction := 1 } }).1).1) =
        ((ColorfulFlooding.spawnPhase (fun _ => 0)
            (ColorfulFlooding.stepPhase (fun p => p)
              { space := [ColorfulFlooding.Obj.upperBody, ColorfulFlooding.Obj.upperShape, ColorfulFlooding.Obj.leftBody, ColorfulFlooding.Obj.leftShape, ColorfulFlooding.Obj.rightBody, ColorfulFlooding.Obj.rightShape, ColorfulFlooding.Obj.ballBody 0, ColorfulFlooding.Obj.ballShape 0], sources_positions := [(233, 140), (466, 140)], balls_list := [{ idx := 0, color := [1, 2, 3], mass := 1, radius := 10, elasticity := 0, friction := 1, pos := (100, 100) }], counter := 0, remove_screen_bottom := true, nextId := 1, config := { screen_width := 700, screen_height := 700, gravity := 900, n_sources := 2, create_balls_every := 5, mass := 1, radius := 10, elasticity := 0, friction := 1 } }).1).1, []) :=
  colorful_flooding_second_teardown_is_harmless (fun p => p) (fun _ => 0)
    { space := [ColorfulFlooding.Obj.upperBody, ColorfulFlooding.Obj.upperShape, ColorfulFlooding.Obj.leftBody, ColorfulFlooding.Obj.leftShape, ColorfulFlooding.Obj.rightBody, ColorfulFlooding.Obj.rightShape, ColorfulFlooding.Obj.ballBody 0, ColorfulFlooding.Obj.ballShape 0], sources_positions := [(233, 140), (466, 140)], balls_list := [{ idx := 0, color := [1, 2, 3], mass := 1, radius := 10, elasticity := 0, friction := 1, pos := (100, 100) }], counter := 0, remove_screen_bottom := true, nextId := 1, config := { screen_width := 700, screen_height := 700, gravity := 900, n_sources := 2, create_balls_every := 5, mass := 1, radius := 10, elasticity := 0, friction := 1 } }
    rfl (by decide) (by decide) (by decide) (by decide)
